import Mathlib

/-!
Verification development for the edge OCI registry (Go sources:
`multipart.go`, `uploads.go`, `s3auth.go`, `security.go`, main router).

Go strings are modelled as lists of characters (`GoStr`); all strings handled
by the engine (keys, digests, hex hashes, headers) are ASCII, where Go's
byte-level indexing coincides with character indexing. Machine integers are
modelled as `Nat` with explicit `% 2^32` where 32-bit overflow matters
(SHA-256). The KV store and the S3 backend are explicit parameters: the KV
store is an association-list state threaded through the functions, the backend
is an oracle mapping each request to `none` (network-level send error) or
`some` response. Every outbound S3 request is recorded in a trace.
-/

namespace EdgeOCI

/-- Go strings as lists of characters (byte strings; all relevant data is ASCII). -/
abbrev GoStr := List Char

/-- Literal Go string. -/
def gs (s : String) : GoStr := s.data

/-- UTF-8 bytes of an ASCII Go string (`[]byte(s)`). -/
def strBytes (s : GoStr) : List Nat := s.map Char.toNat

/-! ## SHA-256 (crypto/sha256), byte-level, over `Nat` with explicit mod 2^32 -/

/-- Truncate to a 32-bit word. -/
def w32 (x : Nat) : Nat := x % 4294967296

/-- 32-bit rotate right. -/
def rotr (n x : Nat) : Nat := w32 ((x >>> n) ||| (x <<< (32 - n)))

def shr (n x : Nat) : Nat := x >>> n

def ch (x y z : Nat) : Nat := (x &&& y) ^^^ ((x ^^^ 4294967295) &&& z)

def maj (x y z : Nat) : Nat := (x &&& y) ^^^ (x &&& z) ^^^ (y &&& z)

def bigSigma0 (x : Nat) : Nat := (rotr 2 x) ^^^ (rotr 13 x) ^^^ (rotr 22 x)

def bigSigma1 (x : Nat) : Nat := (rotr 6 x) ^^^ (rotr 11 x) ^^^ (rotr 25 x)

def smallSigma0 (x : Nat) : Nat := (rotr 7 x) ^^^ (rotr 18 x) ^^^ (shr 3 x)

def smallSigma1 (x : Nat) : Nat := (rotr 17 x) ^^^ (rotr 19 x) ^^^ (shr 10 x)

/-- SHA-256 round constants (FIPS 180-4, in decimal). -/
def K256 : List Nat :=
  [1116352408, 1899447441, 3049323471, 3921009573, 961987163, 1508970993,
   2453635748, 2870763221, 3624381080, 310598401, 607225278, 1426881987,
   1925078388, 2162078206, 2614888103, 3248222580, 3835390401, 4022224774,
   264347078, 604807628, 770255983, 1249150122, 1555081692, 1996064986,
   2554220882, 2821834349, 2952996808, 3210313671, 3336571891, 3584528711,
   113926993, 338241895, 666307205, 773529912, 1294757372, 1396182291,
   1695183700, 1986661051, 2177026350, 2456956037, 2730485921, 2820302411,
   3259730800, 3345764771, 3516065817, 3600352804, 4094571909, 275423344,
   430227734, 506948616, 659060556, 883997877, 958139571, 1322822218,
   1537002063, 1747873779, 1955562222, 2024104815, 2227730452, 2361852424,
   2428436474, 2756734187, 3204031479, 3329325298]

/-- SHA-256 initial hash value (FIPS 180-4, in decimal). -/
def H256 : List Nat :=
  [1779033703, 3144134277, 1013904242, 2773480762,
   1359893119, 2600822924, 528734635, 1541459225]

/-- Big-endian 8-byte encoding of a (bit-)length. -/
def beBytes8 (n : Nat) : List Nat :=
  [n >>> 56 % 256, n >>> 48 % 256, n >>> 40 % 256, n >>> 32 % 256,
   n >>> 24 % 256, n >>> 16 % 256, n >>> 8 % 256, n % 256]

/-- Big-endian 4-byte encoding of a 32-bit word. -/
def beBytes4 (n : Nat) : List Nat :=
  [n >>> 24 % 256, n >>> 16 % 256, n >>> 8 % 256, n % 256]

/-- SHA-256 padding: append 0x80, zeros, and the 64-bit big-endian bit length. -/
def padMessage (msg : List Nat) : List Nat :=
  msg ++ [128] ++ List.replicate ((64 - ((msg.length + 9) % 64)) % 64) 0
      ++ beBytes8 (8 * msg.length)

/-- Group bytes into big-endian 32-bit words. -/
def toWords : List Nat → List Nat
  | a :: b :: c :: d :: rest => (a * 16777216 + b * 65536 + c * 256 + d) :: toWords rest
  | _ => []

/-- One extension step of the SHA-256 message schedule. -/
def scheduleStep (acc : List Nat) : List Nat :=
  let n := acc.length
  let g : Nat → Nat := fun k => acc.getD (n - k) 0
  acc ++ [w32 (smallSigma1 (g 2) + g 7 + smallSigma0 (g 15) + g 16)]

/-- Extend the 16 block words to the 64 schedule words. -/
def scheduleFull (ws : List Nat) : List Nat :=
  (List.range 48).foldl (fun a _ => scheduleStep a) ws

/-- One SHA-256 round on the working state `[a,b,c,d,e,f,g,h]`. -/
def roundStep (st : List Nat) (kw : Nat × Nat) : List Nat :=
  match st with
  | [a, b, c, d, e, f, g, h] =>
    let t1 := w32 (h + bigSigma1 e + ch e f g + kw.1 + kw.2)
    let t2 := w32 (bigSigma0 a + maj a b c)
    [w32 (t1 + t2), a, b, c, w32 (d + t1), e, f, g]
  | other => other

/-- SHA-256 compression of one 64-byte block into the chaining state. -/
def compressBlock (h : List Nat) (block : List Nat) : List Nat :=
  let ws := scheduleFull (toWords block)
  let st := (K256.zip ws).foldl roundStep h
  (h.zip st).map (fun p => w32 (p.1 + p.2))

/-- Split into 64-byte blocks, with structural fuel (so the kernel can reduce it).
Any fuel ≥ the number of blocks gives the same result. -/
def chunk64Fuel : Nat → List Nat → List (List Nat)
  | 0, _ => []
  | _, [] => []
  | fuel + 1, l => l.take 64 :: chunk64Fuel fuel (l.drop 64)

/-- Split a (padded) message into 64-byte blocks. -/
def chunk64 (l : List Nat) : List (List Nat) := chunk64Fuel l.length l

/-- SHA-256 digest (32 bytes) of a byte list. -/
def sha256Bytes (msg : List Nat) : List Nat :=
  ((chunk64 (padMessage msg)).foldl compressBlock H256).flatMap beBytes4

/-- Lowercase hex digit. -/
def hexDigit (n : Nat) : Char := (gs "0123456789abcdef").getD n '0'

/-- Lowercase hex encoding of a byte list (`hex.EncodeToString`). -/
def hexEncode (bs : List Nat) : GoStr :=
  bs.flatMap (fun b => [hexDigit (b / 16 % 16), hexDigit (b % 16)])

/-- `sha256Hex` from `s3auth.go`: lowercase hex SHA-256 of a byte list. -/
def sha256Hex (data : List Nat) : GoStr := hexEncode (sha256Bytes data)

/-! ## HMAC-SHA256 (crypto/hmac) and the SigV4 signature (`s3auth.go`) -/

/-- `hmacSHA256` from `s3auth.go` (standard HMAC with a 64-byte block). -/
def hmacSHA256 (key data : List Nat) : List Nat :=
  let k0 := if key.length > 64 then sha256Bytes key else key
  let k := k0 ++ List.replicate (64 - k0.length) 0
  sha256Bytes ((k.map (fun b => b ^^^ 92)) ++
    sha256Bytes ((k.map (fun b => b ^^^ 54)) ++ data))

/-- Deployment constant `FastlyOSRegion` from `s3auth.go` (configuration placeholder). -/
def FastlyOSRegion : GoStr := gs "YOUR_REGION"

/-- Constant `S3Service = "s3"` from `s3auth.go`. -/
def S3Service : GoStr := gs "s3"

/-- `calculateSignature` from `s3auth.go`, with the package-level region constant
abstracted as a parameter (the source reads the constant `FastlyOSRegion`). -/
def calculateSignatureWith (region secretKey date stringToSign : GoStr) : GoStr :=
  let kSecret := strBytes (gs "AWS4" ++ secretKey)
  let kDate := hmacSHA256 kSecret (strBytes date)
  let kRegion := hmacSHA256 kDate (strBytes region)
  let kService := hmacSHA256 kRegion (strBytes S3Service)
  let kSigning := hmacSHA256 kService (strBytes (gs "aws4_request"))
  hexEncode (hmacSHA256 kSigning (strBytes stringToSign))

/-- `calculateSignature` exactly as in the source (region fixed to the constant). -/
def calculateSignature (secretKey date stringToSign : GoStr) : GoStr :=
  calculateSignatureWith FastlyOSRegion secretKey date stringToSign

/-- The SigV4 signing-key chain as the spec words it: signature is the lowercase
hex of `HMAC(K, string-to-sign)` with
`K = HMAC(HMAC(HMAC(HMAC("AWS4"+secret, date), region), "s3"), "aws4_request")`. -/
def specSigV4Signature (region secret date stringToSign : GoStr) : GoStr :=
  hexEncode (hmacSHA256
    (hmacSHA256
      (hmacSHA256
        (hmacSHA256 (hmacSHA256 (strBytes (gs "AWS4" ++ secret)) (strBytes date))
          (strBytes region))
        (strBytes (gs "s3")))
      (strBytes (gs "aws4_request")))
    (strBytes stringToSign))

/-! ## Go string helpers -/

/-- Decimal rendering of a `Nat` (`fmt.Sprintf("%d", n)`). -/
def natStr (n : Nat) : GoStr := (Nat.repr n).data

/-- The `Range: 0-<n-1>` header value; Go writes `max(0, bytesReceived-1)`,
which coincides with truncated `Nat` subtraction. -/
def rangeHeader (bytesReceived : Nat) : GoStr := gs "0-" ++ natStr (bytesReceived - 1)

/-- `strings.TrimSuffix`. -/
def trimSuffix (s sfx : GoStr) : GoStr :=
  if sfx.isSuffixOf s then s.take (s.length - sfx.length) else s

/-! ## KV store (association lists; `store.Insert` overwrites, `store.Delete`
removes; `%2F`-flattening of keys is injective on the keys the engine uses and
is elided, the tables are keyed by the un-flattened key directly) -/

def lookupKey {α : Type} (k : GoStr) : List (GoStr × α) → Option α
  | [] => none
  | p :: rest => if p.1 = k then some p.2 else lookupKey k rest

def eraseKey {α : Type} (k : GoStr) : List (GoStr × α) → List (GoStr × α)
  | [] => []
  | p :: rest => if p.1 = k then eraseKey k rest else p :: eraseKey k rest

def insertKey {α : Type} (k : GoStr) (v : α) (l : List (GoStr × α)) : List (GoStr × α) :=
  (k, v) :: eraseKey k l

/-! ## Data model (`multipart.go`, `uploads.go`) -/

/-- `CompletedPart` (multipart.go). -/
structure CompletedPart where
  partNumber : Nat
  etag : GoStr
deriving DecidableEq, Repr

/-- `MultipartState` (multipart.go); `startedAt` is an opaque timestamp string,
never consulted by the engine, set to `[]` on creation in this model. -/
structure MultipartState where
  s3UploadId : GoStr
  s3Key : GoStr
  completedParts : List CompletedPart
  nextPartNumber : Nat
  bytesUploaded : Nat
  startedAt : GoStr
  contentHash : GoStr
deriving DecidableEq, Repr

/-- One `<Part>` of a parsed `ListPartsResult` (multipart.go). -/
structure ListPart where
  partNumber : Nat
  etag : GoStr
  size : Nat
deriving DecidableEq, Repr

/-- A ListParts response: HTTP status and the parsed parts. -/
structure ListPartsResp where
  status : Nat
  parts : List ListPart
deriving DecidableEq, Repr

/-- `MultipartUploadResult` (multipart.go). -/
structure MultipartUploadResult where
  bytesUploaded : Nat
  isComplete : Bool
  state : Option MultipartState
  completedKey : GoStr
deriving DecidableEq, Repr

/-- `UploadSession` (uploads.go); the timestamp fields are opaque strings. -/
structure UploadSession where
  uuid : GoStr
  repo : GoStr
  startedAt : GoStr
  bytesReceived : Nat
  tempLocation : GoStr
  expiresAt : GoStr
deriving DecidableEq, Repr

/-- The metadata KV store: upload sessions (`uploads/<uuid>`), multipart
checkpoints (`multipart/<key>`) and completed-content records
(`completed/<key>`). -/
structure KVStore where
  uploads : List (GoStr × UploadSession)
  multipart : List (GoStr × MultipartState)
  completed : List (GoStr × GoStr)
deriving DecidableEq, Repr

def KVStore.saveMultipart (kv : KVStore) (stateKey : GoStr) (st : MultipartState) : KVStore :=
  { kv with multipart := insertKey stateKey st kv.multipart }

def KVStore.deleteMultipart (kv : KVStore) (stateKey : GoStr) : KVStore :=
  { kv with multipart := eraseKey stateKey kv.multipart }

def KVStore.saveCompleted (kv : KVStore) (stateKey finalKey : GoStr) : KVStore :=
  { kv with completed := insertKey stateKey finalKey kv.completed }

def KVStore.deleteCompleted (kv : KVStore) (stateKey : GoStr) : KVStore :=
  { kv with completed := eraseKey stateKey kv.completed }

def KVStore.saveSession (kv : KVStore) (uuid : GoStr) (s : UploadSession) : KVStore :=
  { kv with uploads := insertKey uuid s kv.uploads }

/-! ## The request body and the S3 backend -/

/-- The client request body: a lazy byte stream of total length `len`, whose
byte at absolute offset `i` is `gen i % 256`, with a read position. -/
structure ByteStream where
  gen : Nat → Nat
  len : Nat
  pos : Nat

def ByteStream.remaining (s : ByteStream) : Nat := s.len - s.pos

/-- `io.ReadFull(body, buf[:n])`: yields `min n remaining` bytes and advances.
(`err == io.EOF` in Go corresponds to reading 0 bytes into a nonempty buffer;
`io.ErrUnexpectedEOF` to a short read; transport errors do not occur.) -/
def ByteStream.readFull (s : ByteStream) (n : Nat) : List Nat × ByteStream :=
  let k := min n s.remaining
  ((List.range k).map (fun i => s.gen (s.pos + i) % 256), { s with pos := s.pos + k })

/-- The S3 backend oracle: each field answers one kind of signed request;
`none` models a network-level send error (`req.Send` returning `err != nil`). -/
structure Backend where
  head : GoStr → Option Nat
  listParts : GoStr → GoStr → Option ListPartsResp
  initiate : GoStr → Option (Nat × GoStr)
  uploadPart : GoStr → GoStr → Nat → Nat → Option (Nat × GoStr)
  complete : GoStr → GoStr → Option Nat
  abort : GoStr → GoStr → Option Nat
  putDirect : GoStr → Option Nat

/-- Trace of outbound object-store requests issued by one invocation. -/
inductive S3Call where
  | headCall (key : GoStr)
  | listPartsCall (key uploadId : GoStr)
  | initiateCall (key : GoStr)
  | uploadPartCall (key uploadId : GoStr) (partNumber size : Nat)
  | completeCall (key uploadId : GoStr) (partNumbers : List Nat)
  | abortCall (key uploadId : GoStr)
  | putCall (key : GoStr)
deriving DecidableEq, Repr

def S3Call.isUploadPart : S3Call → Bool
  | .uploadPartCall _ _ _ _ => true
  | _ => false

/-- The part numbers of the upload-part requests in a trace, in order. -/
def uploadPartNumbers (calls : List S3Call) : List Nat :=
  calls.filterMap (fun c => match c with
    | .uploadPartCall _ _ pn _ => some pn
    | _ => none)

/-- The sizes of the upload-part requests in a trace, in order. -/
def uploadPartSizes (calls : List S3Call) : List Nat :=
  calls.filterMap (fun c => match c with
    | .uploadPartCall _ _ _ n => some n
    | _ => none)

/-! ## The ingestion engine (`ResumableMultipartUpload`, multipart.go) -/

/-- The size constants, as a parameter record so that theorems quantify over
them; the source fixes them to `realConfig`. -/
structure Config where
  identifySize : Nat
  partSize : Nat
  maxParts : Nat
deriving DecidableEq, Repr

/-- The source constants (multipart.go): `IdentifyChunkSize = 1*1024*1024`,
`PartSize = 16*1024*1024`, `MaxPartsPerRequest = 28`. -/
def realConfig : Config :=
  { identifySize := 1048576, partSize := 16777216, maxParts := 28 }

/-- The Go error returned by the engine, labelled by return site. -/
inductive MpErr where
  | initiateNetErr
  | initiateBadStatus (status : Nat)
  | firstPartNetErr
  | firstPartBadStatus (status : Nat)
  | backendLimit (partsThisRequest : Nat)
  | partBadStatus (partNumber status : Nat)
  | completeNetErr
  | completeBadStatus (status : Nat)
deriving DecidableEq, Repr

/-- The engine's outcome: updated KV store, request trace, and the Go pair
`(*MultipartUploadResult, error)` — note both can be non-nil at once
(multipart.go:766-770) — plus the final body stream state. -/
structure EngineOut where
  kv : KVStore
  calls : List S3Call
  result : Option MultipartUploadResult
  err : Option MpErr
  body : ByteStream

/-- Ascending order on parts by part number (Go sorts with `sort.Slice` and a
strict less-than; on the duplicate-free lists the engine produces any
ascending sort agrees, we use insertion sort with `≤`). -/
def partLE (a b : CompletedPart) : Prop := a.partNumber ≤ b.partNumber

instance : DecidableRel partLE := fun a b => Nat.decLe a.partNumber b.partNumber

def sortParts (l : List CompletedPart) : List CompletedPart := List.insertionSort partLE l

/-- How the loop of multipart.go:730-795 exits. -/
inductive LoopExit where
  | done
  | netFail (partsThisRequest : Nat)
  | httpFail (partNumber status : Nat)
deriving DecidableEq, Repr

/-- The main upload loop (multipart.go:730-795). `fuel` is the number of loop
iterations still allowed (`maxParts - partsDone`, kept in sync with
`partsDone = partsUploadedThisRequest`). On a network-level send failure the
checkpoint is saved and the loop reports `netFail` (the engine then returns
a non-nil result AND a non-nil error); on a non-2xx status the checkpoint is
saved and the engine returns a nil result with an error. -/
def uploadLoop (cfg : Config) (be : Backend) (stateKey key uploadId : GoStr) :
    Nat → Nat → MultipartState → ByteStream → KVStore → List S3Call →
    KVStore × List S3Call × MultipartState × ByteStream × LoopExit
  | 0, _, st, body, kv, calls => (kv, calls, st, body, .done)
  | fuel + 1, partsDone, st, body, kv, calls =>
    let rd := body.readFull cfg.partSize
    if rd.1.length = 0 ∧ 0 < cfg.partSize then
      (kv, calls, st, rd.2, .done)
    else
      let n := rd.1.length
      let partNumber := st.nextPartNumber
      let calls1 := calls ++ [S3Call.uploadPartCall key uploadId partNumber n]
      match be.uploadPart key uploadId partNumber n with
      | none => (kv.saveMultipart stateKey st, calls1, st, rd.2, .netFail partsDone)
      | some resp =>
        if resp.1 ≠ 200 then
          (kv.saveMultipart stateKey st, calls1, st, rd.2, .httpFail partNumber resp.1)
        else
          let etag := if resp.2 = [] then gs "\"" ++ sha256Hex rd.1 ++ gs "\"" else resp.2
          let st1 : MultipartState :=
            { st with completedParts := st.completedParts ++ [⟨partNumber, etag⟩],
                      nextPartNumber := partNumber + 1,
                      bytesUploaded := st.bytesUploaded + n }
          uploadLoop cfg be stateKey key uploadId fuel (partsDone + 1) st1 rd.2 kv calls1

/-- The tail of the engine shared by the fresh-start and resume-with-zero-bytes
paths: main loop, one-byte tail probe (which consumes the byte it reads, as
`body.Read(peekBuf)` does), zero-part abort, and complete-multipart
(multipart.go:721-877). -/
def finishUpload (cfg : Config) (be : Backend) (stateKey key uploadId : GoStr)
    (partsStart : Nat) (st0 : MultipartState) (body : ByteStream)
    (kv : KVStore) (calls : List S3Call) : EngineOut :=
  match uploadLoop cfg be stateKey key uploadId (cfg.maxParts - partsStart) partsStart st0 body kv calls with
  | (kv1, calls1, st, body1, LoopExit.netFail p) =>
      ⟨kv1, calls1, some ⟨st.bytesUploaded, false, some st, []⟩, some (.backendLimit p), body1⟩
  | (kv1, calls1, _st, body1, LoopExit.httpFail pn status) =>
      ⟨kv1, calls1, none, some (.partBadStatus pn status), body1⟩
  | (kv1, calls1, st, body1, LoopExit.done) =>
      let peek := body1.readFull 1
      if peek.1.length > 0 then
        ⟨kv1.saveMultipart stateKey st, calls1,
         some ⟨st.bytesUploaded, false, some st, []⟩, none, peek.2⟩
      else if st.completedParts = [] then
        ⟨kv1.deleteMultipart stateKey, calls1 ++ [S3Call.abortCall key uploadId],
         some ⟨0, true, none, []⟩, none, peek.2⟩
      else
        let sorted := sortParts st.completedParts
        let calls2 := calls1 ++ [S3Call.completeCall key uploadId (sorted.map CompletedPart.partNumber)]
        match be.complete key uploadId with
        | none => ⟨kv1, calls2, none, some .completeNetErr, peek.2⟩
        | some status =>
          if status ≠ 200 then ⟨kv1, calls2, none, some (.completeBadStatus status), peek.2⟩
          else
            ⟨(kv1.deleteMultipart stateKey).saveCompleted stateKey key, calls2,
             some ⟨st.bytesUploaded, true, none, key⟩, none, peek.2⟩

/-- Rebuilding the in-memory state from a 200 ListParts response
(multipart.go:590-607): replace the parts list, recompute the byte count, and
set the next part number after the last listed part (kept when none listed). -/
def resumedState (st : MultipartState) (resp : ListPartsResp) : MultipartState :=
  { st with
    completedParts := resp.parts.map (fun p => ⟨p.partNumber, p.etag⟩),
    bytesUploaded := (resp.parts.map ListPart.size).sum,
    nextPartNumber :=
      match resp.parts.getLast? with
      | some last => last.partNumber + 1
      | none => st.nextPartNumber }

/-- Fresh start (multipart.go:631-719): initiate, build the first part from the
identification buffer plus a fill read, upload it as part 1, then run the main
loop with `partsUploadedThisRequest = 1`. The fresh checkpoint records the
current `key` and the 16-char fingerprint. -/
def freshStart (cfg : Config) (be : Backend) (kv : KVStore) (calls : List S3Call)
    (stateKey key : GoStr) (identifyData : List Nat) (fp : GoStr)
    (body : ByteStream) : EngineOut :=
  let calls1 := calls ++ [S3Call.initiateCall key]
  match be.initiate key with
  | none => ⟨kv, calls1, none, some .initiateNetErr, body⟩
  | some resp =>
    if resp.1 ≠ 200 then ⟨kv, calls1, none, some (.initiateBadStatus resp.1), body⟩
    else
      let uploadId := resp.2
      let rd := body.readFull (cfg.partSize - identifyData.length)
      let firstPart := identifyData ++ rd.1
      let n1 := firstPart.length
      let calls2 := calls1 ++ [S3Call.uploadPartCall key uploadId 1 n1]
      match be.uploadPart key uploadId 1 n1 with
      | none => ⟨kv, calls2, none, some .firstPartNetErr, rd.2⟩
      | some presp =>
        if presp.1 ≠ 200 then ⟨kv, calls2, none, some (.firstPartBadStatus presp.1), rd.2⟩
        else
          let etag := if presp.2 = [] then gs "\"" ++ sha256Hex firstPart ++ gs "\"" else presp.2
          let st : MultipartState :=
            { s3UploadId := uploadId, s3Key := key,
              completedParts := [⟨1, etag⟩], nextPartNumber := 2,
              bytesUploaded := n1, startedAt := [], contentHash := fp }
          finishUpload cfg be stateKey key uploadId 1 st rd.2 kv calls2

/-- Resume probe and dispatch (multipart.go:554-625): if a checkpoint with a
matching fingerprint exists, the stored S3 key and upload id are reused (the
`key` variable is reassigned, and stays reassigned even when ListParts fails
and a fresh start follows); ListParts reconciles the state; with positive
authoritative progress the engine returns immediately without uploading. -/
def afterEarly (cfg : Config) (be : Backend) (kv : KVStore) (calls : List S3Call)
    (stateKey key0 : GoStr) (identifyData : List Nat) (fp : GoStr)
    (body : ByteStream) : EngineOut :=
  match lookupKey stateKey kv.multipart with
  | some st0 =>
    if st0.contentHash = fp then
      let key := st0.s3Key
      let uploadId := st0.s3UploadId
      let calls1 := calls ++ [S3Call.listPartsCall key uploadId]
      match be.listParts key uploadId with
      | none =>
        freshStart cfg be (kv.deleteMultipart stateKey) calls1 stateKey key identifyData fp body
      | some resp =>
        if resp.status ≠ 200 then
          freshStart cfg be (kv.deleteMultipart stateKey) calls1 stateKey key identifyData fp body
        else
          let st := resumedState st0 resp
          if st.bytesUploaded > 0 then
            ⟨kv, calls1, some ⟨st.bytesUploaded, false, some st, []⟩, none, body⟩
          else
            finishUpload cfg be stateKey key uploadId 1 st body kv calls1
    else freshStart cfg be kv calls stateKey key0 identifyData fp body
  | none => freshStart cfg be kv calls stateKey key0 identifyData fp body

/-- The checkpoint key `"<repo>/<first 16 hex chars of SHA-256(identify window)>"`
derived by the engine for a given body (multipart.go:526-527). -/
def engineStateKey (cfg : Config) (repoName : GoStr) (body : ByteStream) : GoStr :=
  repoName ++ gs "/" ++ (sha256Hex (body.readFull cfg.identifySize).1).take 16

/-- `ResumableMultipartUpload` (multipart.go:507-878). Reads the identification
window (empty stream returns "complete, no data" immediately), checks the
completed-content table (early exit verified by HEAD; a stale record is
purged), then resumes or starts fresh. -/
def ResumableMultipartUpload (cfg : Config) (be : Backend) (kv : KVStore)
    (repoName key : GoStr) (body : ByteStream) : EngineOut :=
  let rd := body.readFull cfg.identifySize
  let identifyData := rd.1
  let body1 := rd.2
  if 0 < cfg.identifySize ∧ identifyData = [] then
    ⟨kv, [], some ⟨0, true, none, []⟩, none, body1⟩
  else
    let fp := (sha256Hex identifyData).take 16
    let stateKey := repoName ++ gs "/" ++ fp
    let ck := (lookupKey stateKey kv.completed).getD []
    if ck = [] then
      afterEarly cfg be kv [] stateKey key identifyData fp body1
    else
      let calls := [S3Call.headCall ck]
      match be.head ck with
      | some status =>
        if status = 200 then ⟨kv, calls, some ⟨0, true, none, ck⟩, none, body1⟩
        else afterEarly cfg be (kv.deleteCompleted stateKey) calls stateKey key identifyData fp body1
      | none => afterEarly cfg be (kv.deleteCompleted stateKey) calls stateKey key identifyData fp body1

/-! ## The PATCH handler (`handleUploadChunk`, uploads.go:108-235) -/

/-- The handler's HTTP outcome: `accepted` is a 202 with `Location`,
`Docker-Upload-UUID`, the given `Range` value and `Content-Length: 0`;
`errResp` is an `OCIError` with the given code and HTTP status. -/
inductive HandlerResp where
  | accepted (range : GoStr)
  | errResp (code : GoStr) (status : Nat)
deriving DecidableEq, Repr

structure PatchOut where
  kv : KVStore
  calls : List S3Call
  out : HandlerResp
  body : ByteStream

/-- `handleUploadChunk`: session lookup, the fast path for re-entries with
prior progress, the chunked multipart path, and the known-size direct PUT
path. `contentLength` is the already-parsed `Content-Length` value
(`fmt.Sscanf` leaves 0 when the header is absent). -/
def handleUploadChunk (cfg : Config) (be : Backend) (kv : KVStore)
    (name uploadUUID : GoStr) (contentLength : Nat) (transferEncoding : GoStr)
    (body : ByteStream) : PatchOut :=
  match lookupKey uploadUUID kv.uploads with
  | none => ⟨kv, [], .errResp (gs "BLOB_UPLOAD_UNKNOWN") 404, body⟩
  | some session =>
    if session.bytesReceived > 0 ∧ transferEncoding = gs "chunked" then
      ⟨kv, [], .accepted (rangeHeader session.bytesReceived), body⟩
    else if contentLength = 0 ∧ transferEncoding = gs "chunked" then
      let chunkKey := session.tempLocation ++ gs "/data"
      let eo := ResumableMultipartUpload cfg be kv name chunkKey body
      match eo.err with
      | some _ => ⟨eo.kv, eo.calls, .errResp (gs "UNSUPPORTED") 500, eo.body⟩
      | none =>
        match eo.result with
        | none =>
          -- unreachable: every engine return with a nil error carries a result
          ⟨eo.kv, eo.calls, .errResp (gs "GO_NIL_DEREFERENCE") 0, eo.body⟩
        | some res =>
          if res.completedKey ≠ [] ∧ res.isComplete = true then
            let session1 := { session with
              tempLocation := trimSuffix res.completedKey (gs "/data"),
              bytesReceived := 1 }
            ⟨eo.kv.saveSession uploadUUID session1, eo.calls, .accepted (gs "0-0"), eo.body⟩
          else if res.bytesUploaded > 0 then
            let stKey := match res.state with
              | some st => st.s3Key
              | none => []
            let temp1 :=
              if stKey ≠ [] then trimSuffix stKey (gs "/data")
              else if res.completedKey ≠ [] then trimSuffix res.completedKey (gs "/data")
              else session.tempLocation
            let session1 := { session with bytesReceived := res.bytesUploaded, tempLocation := temp1 }
            let kv1 := eo.kv.saveSession uploadUUID session1
            if res.isComplete = false then
              ⟨kv1, eo.calls, .accepted (rangeHeader res.bytesUploaded), eo.body⟩
            else
              ⟨kv1, eo.calls, .accepted (rangeHeader session1.bytesReceived), eo.body⟩
          else
            ⟨eo.kv, eo.calls, .accepted (rangeHeader session.bytesReceived), eo.body⟩
    else if contentLength > 0 then
      let chunkKey := session.tempLocation ++ gs "/data"
      let calls := [S3Call.putCall chunkKey]
      match be.putDirect chunkKey with
      | none => ⟨kv, calls, .errResp (gs "UNSUPPORTED") 500, body⟩
      | some status =>
        if status < 200 ∨ 300 ≤ status then
          ⟨kv, calls, .errResp (gs "UNSUPPORTED") 500, body⟩
        else
          let session1 := { session with bytesReceived := session.bytesReceived + contentLength }
          ⟨kv.saveSession uploadUUID session1, calls,
           .accepted (rangeHeader session1.bytesReceived), body⟩
    else
      ⟨kv, [], .accepted (rangeHeader session.bytesReceived), body⟩

/-! ## Digest validation (security.go) and the finalizer's key computation
(uploads.go:256-262, s3auth.go:240-246) -/

/-- `isHexChar` (security.go:255-257). -/
def isHexChar (c : Char) : Bool :=
  decide (('0' ≤ c ∧ c ≤ '9') ∨ ('a' ≤ c ∧ c ≤ 'f') ∨ ('A' ≤ c ∧ c ≤ 'F'))

/-- `strings.SplitN(s, ":", 2)`: `none` when `s` has no colon, otherwise the
part before the first colon and everything after it. -/
def splitOnceColon : GoStr → Option (GoStr × GoStr)
  | [] => none
  | c :: rest =>
    if c = ':' then some ([], rest)
    else (splitOnceColon rest).map (fun p => (c :: p.1, p.2))

structure OCIErr where
  code : GoStr
  status : Nat
deriving DecidableEq, Repr

/-- `ValidateDigestFormat` (security.go:197-252): requires
`sha256:<64 hex characters>`; every rejection is `DIGEST_INVALID` / 400. -/
def ValidateDigestFormat (digest : GoStr) : Option OCIErr :=
  if digest = [] then some ⟨gs "DIGEST_INVALID", 400⟩
  else
    match splitOnceColon digest with
    | none => some ⟨gs "DIGEST_INVALID", 400⟩
    | some (algorithm, hash) =>
      if algorithm ≠ gs "sha256" then some ⟨gs "DIGEST_INVALID", 400⟩
      else if hash.length ≠ 64 then some ⟨gs "DIGEST_INVALID", 400⟩
      else if hash.any (fun c => ! isHexChar c) then some ⟨gs "DIGEST_INVALID", 400⟩
      else none

/-- The well-formedness the spec asks of a declared digest:
`sha256:<64 hex characters>`. -/
def wellFormedDigest (d : GoStr) : Bool :=
  (gs "sha256:").isPrefixOf d && decide ((d.drop 7).length = 64) && (d.drop 7).all isHexChar

/-- Go string slicing `s[a:b]`: `none` models the runtime panic
(`slice bounds out of range`) raised when `b > len(s)` or `a > b`. -/
def goSliceStr (s : GoStr) (a b : Nat) : Option GoStr :=
  if a ≤ b ∧ b ≤ s.length then some ((s.drop a).take (b - a)) else none

/-- `BlobKey` (s3auth.go:240-246): returns `""` for a non-`sha256:` digest,
otherwise `blobs/sha256/<h[0:2]>/<h[2:4]>/<h>`; the slicing panics on a short
hash (modelled as `none`). -/
def BlobKey (digest : GoStr) : Option GoStr :=
  if (gs "sha256:").isPrefixOf digest then
    let hash := digest.drop 7
    match goSliceStr hash 0 2, goSliceStr hash 2 4 with
    | some a, some b => some (gs "blobs/sha256/" ++ a ++ gs "/" ++ b ++ gs "/" ++ hash)
    | _, _ => none
  else some []

/-- The final-key computation inlined in `handleCompleteUpload`
(uploads.go:261-262): `digestHash := expectedDigest[7:]` then the sharded key;
run only after the handler's own `sha256:` prefix check, so the initial drop
of 7 is in range. -/
def finalizerBlobKey (expectedDigest : GoStr) : Option GoStr :=
  let digestHash := expectedDigest.drop 7
  match goSliceStr digestHash 0 2, goSliceStr digestHash 2 4 with
  | some a, some b => some (gs "blobs/sha256/" ++ a ++ gs "/" ++ b ++ gs "/" ++ digestHash)
  | _, _ => none

/-- Outcome of the complete-upload pipeline up to (and excluding) its first
object-store operation. -/
inductive CompleteOutcome where
  | rejected (code : GoStr) (status : Nat)
  | goPanic
  | proceeds (finalKey : GoStr)
deriving DecidableEq, Repr

/-- The digest-handling part of the complete-upload pipeline: the router
validates `route.Digest` with `ValidateDigestFormat` before dispatch
(main router, `handleRoute`), then `handleCompleteUpload` looks up the
session, re-checks the `sha256:` prefix and computes the final key
(uploads.go:244-262). All of this precedes every object-store request of the
finalizer. -/
def completeUploadDigestGate (kv : KVStore) (uploadUUID digest : GoStr) : CompleteOutcome :=
  match ValidateDigestFormat digest with
  | some e => .rejected e.code e.status
  | none =>
    match lookupKey uploadUUID kv.uploads with
    | none => .rejected (gs "BLOB_UPLOAD_UNKNOWN") 404
    | some _ =>
      if ¬ ((gs "sha256:").isPrefixOf digest) then .rejected (gs "DIGEST_INVALID") 400
      else
        match finalizerBlobKey digest with
        | none => .goPanic
        | some k => .proceeds k

/-! ## Signer payload hashes and canonical requests (s3auth.go, multipart.go) -/

/-- Deployment constant `S3Bucket` (s3auth.go, configuration placeholder). -/
def S3Bucket : GoStr := gs "YOUR_BUCKET_NAME"

/-- Deployment constant `FastlyOSHost` (s3auth.go, configuration placeholder). -/
def FastlyOSHost : GoStr := gs "YOUR_REGION.object.fastlystorage.app"

/-- The payload-hash and canonical-request portion of a signed request. -/
structure SignedReq where
  payloadHashHeader : GoStr
  canonicalRequest : GoStr
deriving DecidableEq, Repr

/-- `SignCopyRequest` (s3auth.go:102-150): the payload hash is
`sha256Hex([]byte{})` — the hex SHA-256 of the empty body — placed both in the
`x-amz-content-sha256` header and as the last line of the canonical request. -/
def signCopyRequest (destKey sourceKey datetime : GoStr) : SignedReq :=
  let uri := gs "/" ++ S3Bucket ++ gs "/" ++ destKey
  let copySource := gs "/" ++ S3Bucket ++ gs "/" ++ sourceKey
  let payloadHash := sha256Hex []
  let canonicalHeaders := gs "host:" ++ FastlyOSHost ++ gs "\nx-amz-content-sha256:"
      ++ payloadHash ++ gs "\nx-amz-copy-source:" ++ copySource
      ++ gs "\nx-amz-date:" ++ datetime ++ gs "\n"
  let signedHeaders := gs "host;x-amz-content-sha256;x-amz-copy-source;x-amz-date"
  ⟨payloadHash,
   gs "PUT\n" ++ uri ++ gs "\n\n" ++ canonicalHeaders ++ gs "\n"
     ++ signedHeaders ++ gs "\n" ++ payloadHash⟩

/-- `SignUploadPart` (multipart.go:132-178): payload hash is the literal
`UNSIGNED-PAYLOAD`. -/
def signUploadPart (key uploadId : GoStr) (partNumber contentLength : Nat)
    (datetime : GoStr) : SignedReq :=
  let uri := gs "/" ++ S3Bucket ++ gs "/" ++ key
  let queryString := gs "partNumber=" ++ natStr partNumber ++ gs "&uploadId=" ++ uploadId
  let payloadHash := gs "UNSIGNED-PAYLOAD"
  let canonicalHeaders := gs "content-length:" ++ natStr contentLength
      ++ gs "\nhost:" ++ FastlyOSHost ++ gs "\nx-amz-content-sha256:" ++ payloadHash
      ++ gs "\nx-amz-date:" ++ datetime ++ gs "\n"
  let signedHeaders := gs "content-length;host;x-amz-content-sha256;x-amz-date"
  ⟨payloadHash,
   gs "PUT\n" ++ uri ++ gs "\n" ++ queryString ++ gs "\n" ++ canonicalHeaders
     ++ gs "\n" ++ signedHeaders ++ gs "\n" ++ payloadHash⟩

/-- The canonical request built by `SignPresignedPutURL` (multipart.go:251-252):
it ends in the literal `UNSIGNED-PAYLOAD` (`queryParams` abstracted). -/
def signPresignedPutCanonicalRequest (key queryParams : GoStr) : GoStr :=
  let uri := gs "/" ++ S3Bucket ++ gs "/" ++ key
  let canonicalHeaders := gs "host:" ++ FastlyOSHost ++ gs "\n"
  gs "PUT\n" ++ uri ++ gs "\n" ++ queryParams ++ gs "\n" ++ canonicalHeaders
    ++ gs "\nhost\n" ++ gs "UNSIGNED-PAYLOAD"

/-! ## Helper lemmas -/

theorem hexDigit_mem_of_lt : ∀ n < 16, hexDigit n ∈ gs "0123456789abcdef" := by decide

theorem mem_hexEncode (bs : List Nat) (c : Char) (hc : c ∈ hexEncode bs) :
    c ∈ gs "0123456789abcdef" := by
  unfold hexEncode at hc
  rcases List.mem_flatMap.mp hc with ⟨b, _, hcb⟩
  rcases List.mem_pair.mp hcb with h | h
  · exact h ▸ hexDigit_mem_of_lt _ (Nat.mod_lt _ (by omega))
  · exact h ▸ hexDigit_mem_of_lt _ (Nat.mod_lt _ (by omega))

theorem splitOnceColon_eq :
    ∀ (d a b : GoStr), splitOnceColon d = some (a, b) → d = a ++ ':' :: b := by
  intro d
  induction d with
  | nil => intro a b h; simp [splitOnceColon] at h
  | cons c rest ih =>
    intro a b h
    by_cases hc : c = ':'
    · subst hc
      simp [splitOnceColon] at h
      rcases h with ⟨h1, h2⟩
      subst h1
      subst h2
      rfl
    · simp only [splitOnceColon, if_neg hc, Option.map_eq_some'] at h
      rcases h with ⟨⟨a1, b1⟩, hsp, heq⟩
      cases heq
      rw [ih a1 b1 hsp]
      rfl

theorem validate_some_is_digest_invalid (digest : GoStr) (e : OCIErr)
    (h : ValidateDigestFormat digest = some e) : e = ⟨gs "DIGEST_INVALID", 400⟩ := by
  unfold ValidateDigestFormat at h
  split at h
  · exact (Option.some_inj.mp h).symm
  · split at h
    · exact (Option.some_inj.mp h).symm
    · split at h
      · exact (Option.some_inj.mp h).symm
      · split at h
        · exact (Option.some_inj.mp h).symm
        · split at h
          · exact (Option.some_inj.mp h).symm
          · exact absurd h (by simp)

theorem validate_none_wellFormed (digest : GoStr)
    (h : ValidateDigestFormat digest = none) : wellFormedDigest digest = true := by
  unfold ValidateDigestFormat at h
  split at h
  · exact absurd h (by simp)
  · rcases hsp : splitOnceColon digest with _ | ⟨alg, hash⟩
    · rw [hsp] at h; simp at h
    · rw [hsp] at h
      by_cases halg : alg = gs "sha256"
      · simp only [halg, ne_eq, not_true_eq_false, if_false] at h
        by_cases hlen : hash.length = 64
        · simp only [hlen, ne_eq, not_true_eq_false, if_false] at h
          by_cases hany : hash.any (fun c => ! isHexChar c) = true
          · simp [hany] at h
          · have hall : hash.all isHexChar = true := by
              rw [List.all_eq_true]
              intro c hcmem
              by_contra hf
              rw [Bool.not_eq_true] at hf
              exact hany (List.any_eq_true.mpr ⟨c, hcmem, by simp [hf]⟩)
            have hd : digest = gs "sha256:" ++ hash := by
              have := splitOnceColon_eq digest alg hash hsp
              rw [halg] at this
              exact this
            unfold wellFormedDigest
            rw [hd]
            have hdrop : (gs "sha256:" ++ hash).drop 7 = hash := by
              have h7 : (gs "sha256:").length = 7 := by decide
              rw [← h7, List.drop_left]
            rw [hdrop]
            simp [hall, hlen, List.isPrefixOf_iff_prefix, List.prefix_append]
        · simp [hlen] at h
      · simp [halg] at h

/-! ## Claims about the signer (C5, C6) -/

/-- Claim C5 counterexample: the payload hash that `SignCopyRequest` places in
`x-amz-content-sha256` is not the literal string `UNSIGNED-PAYLOAD` — it is
`sha256Hex([]byte{})` (s3auth.go:116). Concrete input: destination key "a",
source key "b", datetime "t". -/
theorem copy_payload_hash_not_unsigned :
    (signCopyRequest (gs "a") (gs "b") (gs "t")).payloadHashHeader ≠
      gs "UNSIGNED-PAYLOAD" := by decide

theorem suffix_append_left {α : Type} (l : List α) {s t : List α} (h : s <:+ t) :
    s <:+ l ++ t := by
  rcases h with ⟨p, rfl⟩
  exact ⟨l ++ p, List.append_assoc l p s⟩

/-- Claim C5 (amended): for every server-side COPY request produced by the
signer, the payload hash placed in `x-amz-content-sha256` and terminating the
canonical request is the lowercase hex SHA-256 of the empty body
(`e3b0c442…b855`), not `UNSIGNED-PAYLOAD`; PUT-upload-part and presigned PUT
do use the literal `UNSIGNED-PAYLOAD`. -/
theorem copy_payload_hash_is_empty_body_hash (destKey sourceKey datetime : GoStr) :
    (signCopyRequest destKey sourceKey datetime).payloadHashHeader =
      gs "e3b0c44298fc1c149afbf4c8996fb92427ae41e4649b934ca495991b7852b855" ∧
    (signCopyRequest destKey sourceKey datetime).payloadHashHeader <:+
      (signCopyRequest destKey sourceKey datetime).canonicalRequest ∧
    (∀ key uploadId pn n dt,
      (signUploadPart key uploadId pn n dt).payloadHashHeader = gs "UNSIGNED-PAYLOAD" ∧
      gs "UNSIGNED-PAYLOAD" <:+ (signUploadPart key uploadId pn n dt).canonicalRequest) ∧
    (∀ key qp, gs "UNSIGNED-PAYLOAD" <:+ signPresignedPutCanonicalRequest key qp) := by
  have hhash : sha256Hex [] =
      gs "e3b0c44298fc1c149afbf4c8996fb92427ae41e4649b934ca495991b7852b855" := by decide
  refine ⟨hhash, ?_, ?_, ?_⟩
  · have hcanon : (signCopyRequest destKey sourceKey datetime).canonicalRequest =
        gs "PUT\n" ++ (gs "/" ++ S3Bucket ++ gs "/" ++ destKey) ++ gs "\n\n"
        ++ (gs "host:" ++ FastlyOSHost ++ gs "\nx-amz-content-sha256:" ++ sha256Hex []
            ++ gs "\nx-amz-copy-source:" ++ (gs "/" ++ S3Bucket ++ gs "/" ++ sourceKey)
            ++ gs "\nx-amz-date:" ++ datetime ++ gs "\n") ++ gs "\n"
        ++ gs "host;x-amz-content-sha256;x-amz-copy-source;x-amz-date" ++ gs "\n"
        ++ sha256Hex [] := rfl
    rw [show (signCopyRequest destKey sourceKey datetime).payloadHashHeader =
          sha256Hex [] from rfl, hcanon]
    generalize sha256Hex [] = ph
    repeat' apply suffix_append_left
    exact List.suffix_refl _
  · intro key uploadId pn n dt
    refine ⟨rfl, ?_⟩
    have hcanon : (signUploadPart key uploadId pn n dt).canonicalRequest =
        gs "PUT\n" ++ (gs "/" ++ S3Bucket ++ gs "/" ++ key) ++ gs "\n"
        ++ (gs "partNumber=" ++ natStr pn ++ gs "&uploadId=" ++ uploadId) ++ gs "\n"
        ++ (gs "content-length:" ++ natStr n ++ gs "\nhost:" ++ FastlyOSHost
            ++ gs "\nx-amz-content-sha256:" ++ gs "UNSIGNED-PAYLOAD"
            ++ gs "\nx-amz-date:" ++ dt ++ gs "\n") ++ gs "\n"
        ++ gs "content-length;host;x-amz-content-sha256;x-amz-date" ++ gs "\n"
        ++ gs "UNSIGNED-PAYLOAD" := rfl
    rw [hcanon]
    repeat' apply suffix_append_left
    exact List.suffix_refl _
  · intro key qp
    have hcanon : signPresignedPutCanonicalRequest key qp =
        gs "PUT\n" ++ (gs "/" ++ S3Bucket ++ gs "/" ++ key) ++ gs "\n" ++ qp ++ gs "\n"
        ++ (gs "host:" ++ FastlyOSHost ++ gs "\n") ++ gs "\nhost\n"
        ++ gs "UNSIGNED-PAYLOAD" := rfl
    rw [hcanon]
    repeat' apply suffix_append_left
    exact List.suffix_refl _

/-- Claim C6: for every secret key, date, region and string-to-sign, the
computed SigV4 signature equals the lowercase hex of
`HMAC-SHA256(K, string-to-sign)` with
`K = HMAC(HMAC(HMAC(HMAC("AWS4"+secret, date), region), "s3"), "aws4_request")`,
and every character of it is a lowercase hex digit. The source's
`calculateSignature` fixes the region to the `FastlyOSRegion` constant:
`calculateSignature = calculateSignatureWith FastlyOSRegion`. -/
theorem sigv4_signature_matches_spec (region secret date stringToSign : GoStr) :
    calculateSignatureWith region secret date stringToSign =
      specSigV4Signature region secret date stringToSign ∧
    calculateSignature secret date stringToSign =
      specSigV4Signature FastlyOSRegion secret date stringToSign ∧
    ∀ c ∈ calculateSignatureWith region secret date stringToSign,
      c ∈ gs "0123456789abcdef" := by
  refine ⟨rfl, rfl, ?_⟩
  intro c hc
  exact mem_hexEncode _ c hc

/-! ## Claims about the blob-key layout and digest validation (C7, C8) -/

/-- Claim C7: for every digest `sha256:<h>` with `h` a 64-character hex string,
the object-store key computed by `BlobKey` and by the finalizer's inlined
computation is exactly `blobs/sha256/<h[0:2]>/<h[2:4]>/<h>` (a pure function
of the digest alone). -/
theorem blob_key_layout (h : GoStr) (hlen : h.length = 64)
    (_hhex : ∀ c ∈ h, isHexChar c) :
    BlobKey (gs "sha256:" ++ h) =
      some (gs "blobs/sha256/" ++ h.take 2 ++ gs "/" ++ (h.drop 2).take 2 ++ gs "/" ++ h) ∧
    finalizerBlobKey (gs "sha256:" ++ h) = BlobKey (gs "sha256:" ++ h) := by
  have hpre : (gs "sha256:").isPrefixOf (gs "sha256:" ++ h) = true :=
    List.isPrefixOf_iff_prefix.mpr (List.prefix_append _ _)
  have hdrop : (gs "sha256:" ++ h).drop 7 = h := by
    have h7 : (gs "sha256:").length = 7 := by decide
    rw [← h7, List.drop_left]
  have hs1 : goSliceStr h 0 2 = some (h.take 2) := by
    unfold goSliceStr
    rw [if_pos (by omega)]
    simp
  have hs2 : goSliceStr h 2 4 = some ((h.drop 2).take 2) := by
    unfold goSliceStr
    rw [if_pos (by omega)]
  constructor
  · unfold BlobKey
    rw [if_pos hpre]
    simp only [hdrop, hs1, hs2]
  · unfold BlobKey finalizerBlobKey
    rw [if_pos hpre]

/-- Claim C7 witness: the layout at the concrete 64-hex digest consisting of
64 `a` characters. -/
theorem blob_key_layout_witness :
    BlobKey (gs "sha256:" ++
        gs "aaaaaaaaaaaaaaaaaaaaaaaaaaaaaaaaaaaaaaaaaaaaaaaaaaaaaaaaaaaaaaaa") =
      some (gs "blobs/sha256/"
        ++ (gs "aaaaaaaaaaaaaaaaaaaaaaaaaaaaaaaaaaaaaaaaaaaaaaaaaaaaaaaaaaaaaaaa").take 2
        ++ gs "/"
        ++ ((gs "aaaaaaaaaaaaaaaaaaaaaaaaaaaaaaaaaaaaaaaaaaaaaaaaaaaaaaaaaaaaaaaa").drop 2).take 2
        ++ gs "/"
        ++ gs "aaaaaaaaaaaaaaaaaaaaaaaaaaaaaaaaaaaaaaaaaaaaaaaaaaaaaaaaaaaaaaaa") ∧
    finalizerBlobKey (gs "sha256:" ++
        gs "aaaaaaaaaaaaaaaaaaaaaaaaaaaaaaaaaaaaaaaaaaaaaaaaaaaaaaaaaaaaaaaa") =
      BlobKey (gs "sha256:" ++
        gs "aaaaaaaaaaaaaaaaaaaaaaaaaaaaaaaaaaaaaaaaaaaaaaaaaaaaaaaaaaaaaaaa") :=
  blob_key_layout
    (gs "aaaaaaaaaaaaaaaaaaaaaaaaaaaaaaaaaaaaaaaaaaaaaaaaaaaaaaaaaaaaaaaa")
    (by decide) (by decide)

/-- Claim C8: every complete-upload request whose declared digest is not of
the form `sha256:<64 hex characters>` is rejected with `DIGEST_INVALID`
(HTTP 400) before any object-store operation — the router validates the
digest before dispatch — and in particular the final-key computation never
runs (so it cannot index out of range on a short digest such as
`sha256:ab`). -/
theorem invalid_digest_rejected_eagerly (kv : KVStore) (uploadUUID digest : GoStr)
    (hbad : wellFormedDigest digest = false) :
    completeUploadDigestGate kv uploadUUID digest =
      CompleteOutcome.rejected (gs "DIGEST_INVALID") 400 := by
  rcases hv : ValidateDigestFormat digest with _ | e
  · exact absurd (validate_none_wellFormed digest hv) (by simp [hbad])
  · have he := validate_some_is_digest_invalid digest e hv
    unfold completeUploadDigestGate
    rw [hv, he]

/-- Claim C8 witness: the short digest `sha256:ab` is rejected with
`DIGEST_INVALID` 400 (and never reaches the slicing that would panic). -/
theorem invalid_digest_rejected_eagerly_witness :
    completeUploadDigestGate ⟨[], [], []⟩ (gs "u") (gs "sha256:ab") =
      CompleteOutcome.rejected (gs "DIGEST_INVALID") 400 :=
  invalid_digest_rejected_eagerly ⟨[], [], []⟩ (gs "u") (gs "sha256:ab") (by decide)

/-! ## KV association-list lemmas -/

theorem lookup_insert {α : Type} (k : GoStr) (v : α) (l : List (GoStr × α)) :
    lookupKey k (insertKey k v l) = some v := by
  simp [insertKey, lookupKey]

theorem lookup_erase {α : Type} (k : GoStr) (l : List (GoStr × α)) :
    lookupKey k (eraseKey k l) = none := by
  induction l with
  | nil => rfl
  | cons p rest ih =>
    by_cases hp : p.1 = k
    · simpa [eraseKey, hp] using ih
    · simp [eraseKey, lookupKey, hp, ih]

/-! ## Engine lemmas -/

/-- An empty stream makes the engine return "complete, no data" with no KV
writes and no S3 calls (multipart.go:509-518). -/
theorem engine_empty_stream (cfg : Config) (be : Backend) (kv : KVStore)
    (repoName key : GoStr) (body : ByteStream)
    (hempty : body.remaining = 0) (hid : 0 < cfg.identifySize) :
    ResumableMultipartUpload cfg be kv repoName key body =
      ⟨kv, [], some ⟨0, true, none, []⟩, none,
        { body with pos := body.pos + min cfg.identifySize body.remaining }⟩ := by
  unfold ResumableMultipartUpload ByteStream.readFull
  simp only [hempty, Nat.min_zero, List.range_zero, List.map_nil]
  simp [hid]

/-- Whether the completed-content early exit fires (multipart.go:533-548):
a non-empty record exists and the HEAD of its key returns 200. -/
def earlyExitTaken (be : Backend) (kv : KVStore) (stateKey : GoStr) : Bool :=
  let ck := (lookupKey stateKey kv.completed).getD []
  ck ≠ [] && be.head ck == some 200

/-- With a nonempty stream, a completed-content record, and a 200 HEAD, the
engine early-exits: no upload, no KV write, the cached key is returned. -/
theorem engine_early_exit (cfg : Config) (be : Backend) (kv : KVStore)
    (repoName key : GoStr) (body : ByteStream) (ck : GoStr)
    (hne : 0 < body.remaining) (hid : 0 < cfg.identifySize)
    (hck : lookupKey (engineStateKey cfg repoName body) kv.completed = some ck)
    (hckne : ck ≠ [])
    (hhead : be.head ck = some 200) :
    ResumableMultipartUpload cfg be kv repoName key body =
      ⟨kv, [S3Call.headCall ck], some ⟨0, true, none, ck⟩, none,
        (body.readFull cfg.identifySize).2⟩ := by
  have hnenil : (body.readFull cfg.identifySize).1 ≠ [] := by
    have hlen : ((body.readFull cfg.identifySize).1).length =
        min cfg.identifySize body.remaining := by
      simp [ByteStream.readFull]
    intro hcontra
    rw [hcontra] at hlen
    simp at hlen
    omega
  have hsk : engineStateKey cfg repoName body =
      repoName ++ gs "/" ++ (sha256Hex (body.readFull cfg.identifySize).1).take 16 := rfl
  rw [hsk] at hck
  unfold ResumableMultipartUpload
  rw [if_neg (by intro hcontra; exact hnenil hcontra.2)]
  simp only [hck, Option.getD_some]
  rw [if_neg hckne, hhead]
  simp

/-! ## Claim C3: the fast path for re-entries with prior progress -/

/-- Claim C3: for every PATCH whose session has `bytes_received > 0` and whose
Transfer-Encoding is `chunked`, the handler returns 202 (`accepted`) with
`Range: 0-<bytes_received-1>` immediately: the body stream is returned
unread, no object-store call is made, and the KV store — in particular the
session record — is unchanged. -/
theorem fast_path_short_circuit (cfg : Config) (be : Backend) (kv : KVStore)
    (name uploadUUID : GoStr) (contentLength : Nat) (body : ByteStream)
    (session : UploadSession)
    (hs : lookupKey uploadUUID kv.uploads = some session)
    (hb : session.bytesReceived > 0) :
    handleUploadChunk cfg be kv name uploadUUID contentLength (gs "chunked") body =
      ⟨kv, [], .accepted (rangeHeader session.bytesReceived), body⟩ := by
  unfold handleUploadChunk
  simp [hs, hb]

/-- Witness objects: a dead backend (every send fails), simple sessions,
simple bodies. -/
def beDead : Backend :=
  { head := fun _ => none, listParts := fun _ _ => none, initiate := fun _ => none,
    uploadPart := fun _ _ _ _ => none, complete := fun _ _ => none,
    abort := fun _ _ => none, putDirect := fun _ => none }

def mkSession (bytes : Nat) : UploadSession :=
  ⟨gs "u1", gs "r", [], bytes, gs "uploads/r/u1", []⟩

def bodyOfLen (n : Nat) : ByteStream := ⟨fun _ => 0, n, 0⟩

/-- Claim C3 witness: concrete session with 5 bytes received. -/
theorem fast_path_short_circuit_witness :
    handleUploadChunk realConfig beDead ⟨[(gs "u1", mkSession 5)], [], []⟩
        (gs "r") (gs "u1") 0 (gs "chunked") (bodyOfLen 9) =
      ⟨⟨[(gs "u1", mkSession 5)], [], []⟩, [],
       .accepted (rangeHeader (mkSession 5).bytesReceived), bodyOfLen 9⟩ :=
  fast_path_short_circuit realConfig beDead ⟨[(gs "u1", mkSession 5)], [], []⟩
    (gs "r") (gs "u1") 0 (bodyOfLen 9) (mkSession 5) (by decide) (by decide)

/-! ## Claim C9: empty-body PATCH -/

/-- Claim C9: for every PATCH whose body stream yields zero bytes, declared
`Content-Length` 0, and whose session has `bytes_received = 0`, the handler
returns 202 with `Range: 0-0`, issues no object-store request, and leaves the
KV store unchanged (for any Transfer-Encoding). -/
theorem empty_body_patch_no_s3_effects (cfg : Config) (be : Backend) (kv : KVStore)
    (name uploadUUID transferEncoding : GoStr) (body : ByteStream)
    (session : UploadSession)
    (hs : lookupKey uploadUUID kv.uploads = some session)
    (h0 : session.bytesReceived = 0)
    (hempty : body.remaining = 0)
    (hid : 0 < cfg.identifySize) :
    (handleUploadChunk cfg be kv name uploadUUID 0 transferEncoding body).kv = kv ∧
    (handleUploadChunk cfg be kv name uploadUUID 0 transferEncoding body).calls = [] ∧
    (handleUploadChunk cfg be kv name uploadUUID 0 transferEncoding body).out =
      .accepted (gs "0-0") := by
  have hr0 : rangeHeader 0 = gs "0-0" := by decide
  by_cases hte : transferEncoding = gs "chunked"
  · subst hte
    unfold handleUploadChunk
    simp [hs, h0, hr0,
      engine_empty_stream cfg be kv name (session.tempLocation ++ gs "/data") body hempty hid]
  · unfold handleUploadChunk
    simp [hs, h0, hr0, hte]

/-- Claim C9 witness: fresh session, empty body, chunked. -/
theorem empty_body_patch_no_s3_effects_witness :
    (handleUploadChunk realConfig beDead ⟨[(gs "u1", mkSession 0)], [], []⟩
        (gs "r") (gs "u1") 0 (gs "chunked") (bodyOfLen 0)).kv =
      ⟨[(gs "u1", mkSession 0)], [], []⟩ ∧
    (handleUploadChunk realConfig beDead ⟨[(gs "u1", mkSession 0)], [], []⟩
        (gs "r") (gs "u1") 0 (gs "chunked") (bodyOfLen 0)).calls = [] ∧
    (handleUploadChunk realConfig beDead ⟨[(gs "u1", mkSession 0)], [], []⟩
        (gs "r") (gs "u1") 0 (gs "chunked") (bodyOfLen 0)).out =
      .accepted (gs "0-0") :=
  empty_body_patch_no_s3_effects realConfig beDead ⟨[(gs "u1", mkSession 0)], [], []⟩
    (gs "r") (gs "u1") (gs "chunked") (bodyOfLen 0) (mkSession 0)
    (by decide) (by decide) (by decide) (by decide)

/-! ## Claim C10: the completed-content early exit writes a sentinel session -/

/-- Claim C10: on the completed-content early exit (cached key verified by
HEAD 200), the handler overwrites the session record with `TempLocation` set
to the verified key stripped of its `/data` suffix and `BytesReceived` set to
the constant 1 — not the blob's actual size — and responds 202 with
`Range: 0-0`. -/
theorem early_exit_sentinel_session (cfg : Config) (be : Backend) (kv : KVStore)
    (name uploadUUID : GoStr) (body : ByteStream) (session : UploadSession) (ck : GoStr)
    (hs : lookupKey uploadUUID kv.uploads = some session)
    (h0 : session.bytesReceived = 0)
    (hne : 0 < body.remaining) (hid : 0 < cfg.identifySize)
    (hck : lookupKey (engineStateKey cfg name body) kv.completed = some ck)
    (hckne : ck ≠ [])
    (hhead : be.head ck = some 200) :
    (handleUploadChunk cfg be kv name uploadUUID 0 (gs "chunked") body).out =
      .accepted (gs "0-0") ∧
    (handleUploadChunk cfg be kv name uploadUUID 0 (gs "chunked") body).calls =
      [S3Call.headCall ck] ∧
    lookupKey uploadUUID
        (handleUploadChunk cfg be kv name uploadUUID 0 (gs "chunked") body).kv.uploads =
      some { session with tempLocation := trimSuffix ck (gs "/data"), bytesReceived := 1 } := by
  unfold handleUploadChunk
  simp [hs, h0, hckne, KVStore.saveSession, lookup_insert,
    engine_early_exit cfg be kv name (session.tempLocation ++ gs "/data") body ck
      hne hid hck hckne hhead]

def c10Body : ByteStream := ⟨fun _ => 0, 3, 0⟩

def c10Ck : GoStr := gs "uploads/r/old/data"

def c10Kv : KVStore :=
  ⟨[(gs "u1", mkSession 0)], [], [(engineStateKey realConfig (gs "r") c10Body, c10Ck)]⟩

def c10Be : Backend := { beDead with head := fun _ => some 200 }

/-- Claim C10 witness: concrete early exit with a verified completed record. -/
theorem early_exit_sentinel_session_witness :
    (handleUploadChunk realConfig c10Be c10Kv (gs "r") (gs "u1") 0 (gs "chunked") c10Body).out =
      .accepted (gs "0-0") ∧
    (handleUploadChunk realConfig c10Be c10Kv (gs "r") (gs "u1") 0 (gs "chunked") c10Body).calls =
      [S3Call.headCall c10Ck] ∧
    lookupKey (gs "u1")
        (handleUploadChunk realConfig c10Be c10Kv (gs "r") (gs "u1") 0 (gs "chunked") c10Body).kv.uploads =
      some { mkSession 0 with tempLocation := trimSuffix c10Ck (gs "/data"), bytesReceived := 1 } :=
  early_exit_sentinel_session realConfig c10Be c10Kv (gs "r") (gs "u1") c10Body
    (mkSession 0) c10Ck (by decide) (by decide) (by decide) (by decide) (by decide)
    (by decide) (by decide)

/-! ## Claim C2: resume probe with authoritative progress -/

/-- With a nonempty stream and no completed-content early exit, the engine
reduces to `afterEarly` with an unchanged multipart table and upload-session
table, and at most a HEAD call recorded. -/
theorem engine_to_afterEarly (cfg : Config) (be : Backend) (kv : KVStore)
    (repoName key : GoStr) (body : ByteStream)
    (hne : 0 < body.remaining) (hid : 0 < cfg.identifySize)
    (hnoee : earlyExitTaken be kv (engineStateKey cfg repoName body) = false) :
    ∃ kv0 calls0,
      kv0.multipart = kv.multipart ∧ kv0.uploads = kv.uploads ∧
      (∀ c ∈ calls0, c.isUploadPart = false) ∧
      ResumableMultipartUpload cfg be kv repoName key body =
        afterEarly cfg be kv0 calls0 (engineStateKey cfg repoName body) key
          (body.readFull cfg.identifySize).1
          ((sha256Hex (body.readFull cfg.identifySize).1).take 16)
          (body.readFull cfg.identifySize).2 := by
  have hnenil : (body.readFull cfg.identifySize).1 ≠ [] := by
    have hlen : ((body.readFull cfg.identifySize).1).length =
        min cfg.identifySize body.remaining := by
      simp [ByteStream.readFull]
    intro hcontra
    rw [hcontra] at hlen
    simp at hlen
    omega
  have hsk : engineStateKey cfg repoName body =
      repoName ++ gs "/" ++ (sha256Hex (body.readFull cfg.identifySize).1).take 16 := rfl
  rw [hsk] at hnoee ⊢
  unfold earlyExitTaken at hnoee
  simp only [Bool.and_eq_false_iff] at hnoee
  by_cases hck : (lookupKey (repoName ++ gs "/" ++
      (sha256Hex (body.readFull cfg.identifySize).1).take 16) kv.completed).getD [] = []
  · refine ⟨kv, [], rfl, rfl, by simp, ?_⟩
    unfold ResumableMultipartUpload
    rw [if_neg (by intro hcontra; exact hnenil hcontra.2)]
    rw [if_pos hck]
  · have hhead : be.head ((lookupKey (repoName ++ gs "/" ++
        (sha256Hex (body.readFull cfg.identifySize).1).take 16) kv.completed).getD []) ≠
        some 200 := by
      rcases hnoee with h | h
      · exact absurd (by simpa using hck) (by simpa using h)
      · intro hcontra
        rw [hcontra] at h
        simp at h
    refine ⟨kv.deleteCompleted (repoName ++ gs "/" ++
        (sha256Hex (body.readFull cfg.identifySize).1).take 16),
      [S3Call.headCall ((lookupKey (repoName ++ gs "/" ++
        (sha256Hex (body.readFull cfg.identifySize).1).take 16) kv.completed).getD [])],
      rfl, rfl, by simp [S3Call.isUploadPart], ?_⟩
    unfold ResumableMultipartUpload
    rw [if_neg (by intro hcontra; exact hnenil hcontra.2)]
    rw [if_neg hck]
    rcases hbh : be.head ((lookupKey (repoName ++ gs "/" ++
        (sha256Hex (body.readFull cfg.identifySize).1).take 16) kv.completed).getD []) with
      _ | status
    · rfl
    · have hs200 : ¬ status = 200 := by
        intro hcontra
        exact hhead (by rw [hbh, hcontra])
      simp [hs200]

/-- Claim C2: for every ingestion invocation that (with no completed-content
early exit) finds a multipart checkpoint whose stored fingerprint equals the
first 16 hex characters of the SHA-256 of the identification window, and
whose list-parts probe succeeds (200) with positive bytes already uploaded:
the engine keeps the checkpoint's stored S3 object key (not the new session's
key), replaces the in-memory parts list, byte count and next part number with
the values derived from the list-parts response, and returns an incomplete
result with those S3-derived bytes, issuing no upload-part call. -/
theorem resume_reuses_checkpoint_and_bails (cfg : Config) (be : Backend) (kv : KVStore)
    (repoName key : GoStr) (body : ByteStream) (st : MultipartState) (resp : ListPartsResp)
    (hne : 0 < body.remaining) (hid : 0 < cfg.identifySize)
    (hnoee : earlyExitTaken be kv (engineStateKey cfg repoName body) = false)
    (hst : lookupKey (engineStateKey cfg repoName body) kv.multipart = some st)
    (hfp : st.contentHash = (sha256Hex (body.readFull cfg.identifySize).1).take 16)
    (hlp : be.listParts st.s3Key st.s3UploadId = some resp)
    (h200 : resp.status = 200)
    (hbytes : 0 < (resp.parts.map ListPart.size).sum) :
    (ResumableMultipartUpload cfg be kv repoName key body).err = none ∧
    (ResumableMultipartUpload cfg be kv repoName key body).result =
      some ⟨(resp.parts.map ListPart.size).sum, false, some (resumedState st resp), []⟩ ∧
    (resumedState st resp).s3Key = st.s3Key ∧
    (resumedState st resp).completedParts =
      resp.parts.map (fun p => ⟨p.partNumber, p.etag⟩) ∧
    (resumedState st resp).bytesUploaded = (resp.parts.map ListPart.size).sum ∧
    (∀ last, resp.parts.getLast? = some last →
      (resumedState st resp).nextPartNumber = last.partNumber + 1) ∧
    ∀ c ∈ (ResumableMultipartUpload cfg be kv repoName key body).calls,
      c.isUploadPart = false := by
  obtain ⟨kv0, calls0, hm, _hu, hnoup, heq⟩ :=
    engine_to_afterEarly cfg be kv repoName key body hne hid hnoee
  have hst0 : lookupKey (engineStateKey cfg repoName body) kv0.multipart = some st := by
    rw [hm]; exact hst
  have hresumed : afterEarly cfg be kv0 calls0 (engineStateKey cfg repoName body) key
      (body.readFull cfg.identifySize).1
      ((sha256Hex (body.readFull cfg.identifySize).1).take 16)
      (body.readFull cfg.identifySize).2 =
      ⟨kv0, calls0 ++ [S3Call.listPartsCall st.s3Key st.s3UploadId],
       some ⟨(resp.parts.map ListPart.size).sum, false, some (resumedState st resp), []⟩,
       none, (body.readFull cfg.identifySize).2⟩ := by
    unfold afterEarly
    simp [hst0, hfp, hlp, h200, resumedState, hbytes]
  rw [heq, hresumed]
  refine ⟨rfl, rfl, rfl, rfl, rfl, ?_, ?_⟩
  · intro last hlast
    simp [resumedState, hlast]
  · intro c hc
    rcases List.mem_append.mp hc with h | h
    · exact hnoup c h
    · rcases List.mem_singleton.mp h with rfl
      rfl

def c2Body : ByteStream := ⟨fun _ => 1, 3, 0⟩

def c2St : MultipartState :=
  { s3UploadId := gs "U", s3Key := gs "uploads/r/old/data", completedParts := [],
    nextPartNumber := 5, bytesUploaded := 0, startedAt := [],
    contentHash := (sha256Hex (c2Body.readFull realConfig.identifySize).1).take 16 }

def c2Kv : KVStore :=
  ⟨[(gs "u1", mkSession 0)], [(engineStateKey realConfig (gs "r") c2Body, c2St)], []⟩

def c2Resp : ListPartsResp := ⟨200, [⟨1, gs "e1", 4⟩, ⟨2, gs "e2", 4⟩]⟩

def c2Be : Backend := { beDead with listParts := fun _ _ => some c2Resp }

/-- Claim C2 witness: concrete resume with 2 listed parts of 4 bytes each. -/
theorem resume_reuses_checkpoint_and_bails_witness :
    (ResumableMultipartUpload realConfig c2Be c2Kv (gs "r") (gs "uploads/r/new/data") c2Body).err
        = none ∧
    (ResumableMultipartUpload realConfig c2Be c2Kv (gs "r") (gs "uploads/r/new/data") c2Body).result
        = some ⟨(c2Resp.parts.map ListPart.size).sum, false, some (resumedState c2St c2Resp), []⟩ ∧
    (resumedState c2St c2Resp).s3Key = c2St.s3Key ∧
    (resumedState c2St c2Resp).completedParts =
      c2Resp.parts.map (fun p => ⟨p.partNumber, p.etag⟩) ∧
    (resumedState c2St c2Resp).bytesUploaded = (c2Resp.parts.map ListPart.size).sum ∧
    (∀ last, c2Resp.parts.getLast? = some last →
      (resumedState c2St c2Resp).nextPartNumber = last.partNumber + 1) ∧
    ∀ c ∈ (ResumableMultipartUpload realConfig c2Be c2Kv (gs "r")
        (gs "uploads/r/new/data") c2Body).calls, c.isUploadPart = false :=
  resume_reuses_checkpoint_and_bails realConfig c2Be c2Kv (gs "r")
    (gs "uploads/r/new/data") c2Body c2St c2Resp (by decide) (by decide) (by decide)
    (by decide) (by decide) (by decide) (by decide) (by decide)

/-! ## Claim C1: network failure in the main upload loop -/

/-- When the main loop exits with a network failure, the checkpoint holding
the parts uploaded so far has been saved under the checkpoint key
(multipart.go:765). -/
theorem uploadLoop_netFail_saves (cfg : Config) (be : Backend) (sk key uid : GoStr) :
    ∀ (fuel partsDone : Nat) (st : MultipartState) (body : ByteStream)
      (kv : KVStore) (calls : List S3Call)
      (kv1 : KVStore) (calls1 : List S3Call) (st1 : MultipartState)
      (body1 : ByteStream) (p : Nat),
    uploadLoop cfg be sk key uid fuel partsDone st body kv calls =
      (kv1, calls1, st1, body1, LoopExit.netFail p) →
    kv1 = kv.saveMultipart sk st1 := by
  intro fuel
  induction fuel with
  | zero =>
    intro partsDone st body kv calls kv1 calls1 st1 body1 p h
    simp [uploadLoop] at h
  | succ fuel ih =>
    intro partsDone st body kv calls kv1 calls1 st1 body1 p h
    unfold uploadLoop at h
    by_cases heof : ((body.readFull cfg.partSize).1).length = 0 ∧ 0 < cfg.partSize
    · rw [if_pos heof] at h
      simp at h
    · rw [if_neg heof] at h
      try dsimp only at h
      rcases hbe : be.uploadPart key uid st.nextPartNumber ((body.readFull cfg.partSize).1).length
        with _ | resp
      · rw [hbe] at h
        simp only [Prod.mk.injEq] at h
        obtain ⟨h1, _, h3, _⟩ := h
        rw [← h1, ← h3]
      · rw [hbe] at h
        try dsimp only at h
        by_cases h200 : resp.1 ≠ 200
        · rw [if_pos h200] at h
          simp at h
        · rw [if_neg h200] at h
          exact ih _ _ _ _ _ _ _ _ _ _ h

/-- Lifting the previous lemma through `finishUpload`: a `backendLimit` error
implies the output carries a partial result whose state was just saved. -/
theorem finishUpload_backendLimit (cfg : Config) (be : Backend) (sk key uid : GoStr)
    (partsStart : Nat) (st0 : MultipartState) (body : ByteStream)
    (kv : KVStore) (calls : List S3Call) (p : Nat)
    (h : (finishUpload cfg be sk key uid partsStart st0 body kv calls).err =
      some (MpErr.backendLimit p)) :
    ∃ st, (finishUpload cfg be sk key uid partsStart st0 body kv calls).result =
        some ⟨st.bytesUploaded, false, some st, []⟩ ∧
      (finishUpload cfg be sk key uid partsStart st0 body kv calls).kv =
        kv.saveMultipart sk st := by
  rcases hloop : uploadLoop cfg be sk key uid (cfg.maxParts - partsStart) partsStart st0 body kv calls
    with ⟨kv1, calls1, st, body1, ex⟩
  cases ex with
  | netFail q =>
    have hkv1 : kv1 = kv.saveMultipart sk st :=
      uploadLoop_netFail_saves cfg be sk key uid _ _ _ _ _ _ _ _ _ _ _ hloop
    unfold finishUpload at h ⊢
    rw [hloop] at h ⊢
    exact ⟨st, rfl, hkv1⟩
  | httpFail pn status =>
    unfold finishUpload at h
    rw [hloop] at h
    simp at h
  | done =>
    unfold finishUpload at h
    rw [hloop] at h
    try dsimp only at h
    by_cases hpeek : ((body1.readFull 1).1).length > 0
    · rw [if_pos hpeek] at h
      simp at h
    · rw [if_neg hpeek] at h
      by_cases hzero : st.completedParts = []
      · rw [if_pos hzero] at h
        simp at h
      · rw [if_neg hzero] at h
        rcases hcomp : be.complete key uid with _ | status
        · rw [hcomp] at h
          simp at h
        · rw [hcomp] at h
          try dsimp only at h
          by_cases h200 : status ≠ 200
          · rw [if_pos h200] at h
            simp at h
          · rw [if_neg h200] at h
            simp at h

/-- Lifting through `freshStart`. -/
theorem freshStart_backendLimit (cfg : Config) (be : Backend) (kv : KVStore)
    (calls : List S3Call) (sk key : GoStr) (identifyData : List Nat) (fp : GoStr)
    (body : ByteStream) (p : Nat)
    (h : (freshStart cfg be kv calls sk key identifyData fp body).err =
      some (MpErr.backendLimit p)) :
    ∃ st, (freshStart cfg be kv calls sk key identifyData fp body).result =
        some ⟨st.bytesUploaded, false, some st, []⟩ ∧
      (freshStart cfg be kv calls sk key identifyData fp body).kv =
        kv.saveMultipart sk st := by
  unfold freshStart at h ⊢
  try dsimp only at h ⊢
  rcases hinit : be.initiate key with _ | resp
  · rw [hinit] at h
    simp at h
  · rw [hinit] at h
    try dsimp only at h ⊢
    by_cases hst : resp.1 ≠ 200
    · rw [if_pos hst] at h
      simp at h
    · rw [if_neg hst] at h ⊢
      rcases hup : be.uploadPart key resp.2 1 (identifyData ++ (body.readFull (cfg.partSize - identifyData.length)).1).length
        with _ | presp
      · rw [hup] at h
        simp at h
      · rw [hup] at h
        try dsimp only at h ⊢
        by_cases hps : presp.1 ≠ 200
        · rw [if_pos hps] at h
          simp at h
        · rw [if_neg hps] at h ⊢
          exact finishUpload_backendLimit cfg be sk key resp.2 1 _ _ kv _ p h

/-- Lifting through `afterEarly`: whatever path produced the `backendLimit`
error, the final KV store's multipart table maps the checkpoint key to the
state carried by the partial result. -/
theorem afterEarly_backendLimit (cfg : Config) (be : Backend) (kv : KVStore)
    (calls : List S3Call) (sk key : GoStr) (identifyData : List Nat) (fp : GoStr)
    (body : ByteStream) (p : Nat)
    (h : (afterEarly cfg be kv calls sk key identifyData fp body).err =
      some (MpErr.backendLimit p)) :
    ∃ st, (afterEarly cfg be kv calls sk key identifyData fp body).result =
        some ⟨st.bytesUploaded, false, some st, []⟩ ∧
      lookupKey sk (afterEarly cfg be kv calls sk key identifyData fp body).kv.multipart =
        some st := by
  have hofsave : ∀ (kv2 : KVStore) (st : MultipartState),
      lookupKey sk (kv2.saveMultipart sk st).multipart = some st := by
    intro kv2 st
    exact lookup_insert sk st kv2.multipart
  unfold afterEarly at h ⊢
  rcases hlk : lookupKey sk kv.multipart with _ | st0
  · rw [hlk] at h
    obtain ⟨st, h1, h2⟩ := freshStart_backendLimit cfg be kv calls sk key identifyData fp body p h
    exact ⟨st, h1, by rw [h2]; exact hofsave kv st⟩
  · rw [hlk] at h
    try dsimp only at h ⊢
    by_cases hfp : st0.contentHash = fp
    · rw [if_pos hfp] at h ⊢
      try dsimp only at h ⊢
      rcases hlp : be.listParts st0.s3Key st0.s3UploadId with _ | resp
      · rw [hlp] at h
        try dsimp only at h ⊢
        obtain ⟨st, h1, h2⟩ := freshStart_backendLimit cfg be (kv.deleteMultipart sk) _ sk
          st0.s3Key identifyData fp body p h
        exact ⟨st, h1, by rw [h2]; exact hofsave _ st⟩
      · rw [hlp] at h
        try dsimp only at h ⊢
        by_cases h200 : resp.status ≠ 200
        · rw [if_pos h200] at h ⊢
          obtain ⟨st, h1, h2⟩ := freshStart_backendLimit cfg be (kv.deleteMultipart sk) _ sk
            st0.s3Key identifyData fp body p h
          exact ⟨st, h1, by rw [h2]; exact hofsave _ st⟩
        · rw [if_neg h200] at h ⊢
          by_cases hb : (resumedState st0 resp).bytesUploaded > 0
          · rw [if_pos hb] at h
            simp at h
          · rw [if_neg hb] at h ⊢
            obtain ⟨st, h1, h2⟩ := finishUpload_backendLimit cfg be sk st0.s3Key st0.s3UploadId
              1 (resumedState st0 resp) body kv _ p h
            exact ⟨st, h1, by rw [h2]; exact hofsave kv st⟩
    · rw [if_neg hfp] at h ⊢
      obtain ⟨st, h1, h2⟩ := freshStart_backendLimit cfg be kv calls sk key identifyData fp body p h
      exact ⟨st, h1, by rw [h2]; exact hofsave kv st⟩

/-- Lifting to the whole engine. -/
theorem engine_backendLimit_persists (cfg : Config) (be : Backend) (kv : KVStore)
    (repoName key : GoStr) (body : ByteStream) (p : Nat)
    (h : (ResumableMultipartUpload cfg be kv repoName key body).err =
      some (MpErr.backendLimit p)) :
    ∃ st, (ResumableMultipartUpload cfg be kv repoName key body).result =
        some ⟨st.bytesUploaded, false, some st, []⟩ ∧
      lookupKey (engineStateKey cfg repoName body)
        (ResumableMultipartUpload cfg be kv repoName key body).kv.multipart = some st := by
  have hsk : engineStateKey cfg repoName body =
      repoName ++ gs "/" ++ (sha256Hex (body.readFull cfg.identifySize).1).take 16 := rfl
  rw [hsk]
  unfold ResumableMultipartUpload at h ⊢
  try dsimp only at h ⊢
  by_cases hempty : 0 < cfg.identifySize ∧ (body.readFull cfg.identifySize).1 = []
  · rw [if_pos hempty] at h
    simp at h
  · rw [if_neg hempty] at h ⊢
    by_cases hck : (lookupKey (repoName ++ gs "/" ++
        (sha256Hex (body.readFull cfg.identifySize).1).take 16) kv.completed).getD [] = []
    · rw [if_pos hck] at h ⊢
      exact afterEarly_backendLimit cfg be kv [] _ key _ _ _ p h
    · rw [if_neg hck] at h ⊢
      rcases hhd : be.head ((lookupKey (repoName ++ gs "/" ++
          (sha256Hex (body.readFull cfg.identifySize).1).take 16) kv.completed).getD []) with
        _ | status
      · rw [hhd] at h
        try dsimp only at h ⊢
        exact afterEarly_backendLimit cfg be _ _ _ key _ _ _ p h
      · rw [hhd] at h
        try dsimp only at h ⊢
        by_cases h200 : status = 200
        · rw [if_pos h200] at h
          simp at h
        · rw [if_neg h200] at h ⊢
          exact afterEarly_backendLimit cfg be _ _ _ key _ _ _ p h

/-- Claim C1 (amended): when an upload-part request fails at the network
level inside the main upload loop of a chunked PATCH, the engine persists the
multipart checkpoint (with the parts uploaded so far) and hands back a
partial result — but the handler checks the accompanying non-nil error first
and the client receives a fatal HTTP 500 `UNSUPPORTED` response, not 202
(uploads.go:154-157). -/
theorem loop_net_failure_saves_state_but_client_gets_500 (cfg : Config) (be : Backend)
    (kv : KVStore) (name uploadUUID : GoStr) (body : ByteStream)
    (session : UploadSession) (p : Nat)
    (hs : lookupKey uploadUUID kv.uploads = some session)
    (h0 : session.bytesReceived = 0)
    (herr : (ResumableMultipartUpload cfg be kv name (session.tempLocation ++ gs "/data") body).err
      = some (MpErr.backendLimit p)) :
    (handleUploadChunk cfg be kv name uploadUUID 0 (gs "chunked") body).out =
      HandlerResp.errResp (gs "UNSUPPORTED") 500 ∧
    (handleUploadChunk cfg be kv name uploadUUID 0 (gs "chunked") body).kv =
      (ResumableMultipartUpload cfg be kv name (session.tempLocation ++ gs "/data") body).kv ∧
    ∃ st, (ResumableMultipartUpload cfg be kv name (session.tempLocation ++ gs "/data") body).result
        = some ⟨st.bytesUploaded, false, some st, []⟩ ∧
      lookupKey (engineStateKey cfg name body)
        (handleUploadChunk cfg be kv name uploadUUID 0 (gs "chunked") body).kv.multipart =
        some st := by
  have hh : handleUploadChunk cfg be kv name uploadUUID 0 (gs "chunked") body =
      ⟨(ResumableMultipartUpload cfg be kv name (session.tempLocation ++ gs "/data") body).kv,
       (ResumableMultipartUpload cfg be kv name (session.tempLocation ++ gs "/data") body).calls,
       HandlerResp.errResp (gs "UNSUPPORTED") 500,
       (ResumableMultipartUpload cfg be kv name (session.tempLocation ++ gs "/data") body).body⟩ := by
    unfold handleUploadChunk
    simp [hs, h0, herr]
  obtain ⟨st, h1, h2⟩ := engine_backendLimit_persists cfg be kv name
    (session.tempLocation ++ gs "/data") body p herr
  rw [hh]
  exact ⟨rfl, rfl, st, h1, h2⟩

def c1Cfg : Config := ⟨2, 4, 3⟩

def c1Be : Backend := { beDead with
  initiate := fun _ => some (200, gs "U"),
  uploadPart := fun _ _ pn _ => if pn = 1 then some (200, gs "e1") else none }

def c1Kv : KVStore := ⟨[(gs "u1", mkSession 0)], [], []⟩

/-- Claim C1 counterexample: with identify window 2, part size 4, a 5-byte
chunked body and a backend whose part-2 upload fails at the network level
inside the main loop, the engine errors with `backendLimit` and the
checkpoint is persisted — but the handler's response is HTTP 500
`UNSUPPORTED`, not the 202-with-Range the claim asserts. -/
theorem loop_net_failure_returns_500_counterexample :
    (ResumableMultipartUpload c1Cfg c1Be c1Kv (gs "r")
        ((mkSession 0).tempLocation ++ gs "/data") (bodyOfLen 5)).err =
      some (MpErr.backendLimit 1) ∧
    (handleUploadChunk c1Cfg c1Be c1Kv (gs "r") (gs "u1") 0 (gs "chunked") (bodyOfLen 5)).out =
      HandlerResp.errResp (gs "UNSUPPORTED") 500 ∧
    (lookupKey (engineStateKey c1Cfg (gs "r") (bodyOfLen 5))
        (handleUploadChunk c1Cfg c1Be c1Kv (gs "r") (gs "u1") 0 (gs "chunked")
          (bodyOfLen 5)).kv.multipart).isSome = true :=
  ⟨by decide, by decide, by decide⟩

/-- Claim C1 witness (for the amended theorem): the same concrete scenario. -/
theorem loop_net_failure_saves_state_but_client_gets_500_witness :
    (handleUploadChunk c1Cfg c1Be c1Kv (gs "r") (gs "u1") 0 (gs "chunked") (bodyOfLen 5)).out =
      HandlerResp.errResp (gs "UNSUPPORTED") 500 ∧
    (handleUploadChunk c1Cfg c1Be c1Kv (gs "r") (gs "u1") 0 (gs "chunked") (bodyOfLen 5)).kv =
      (ResumableMultipartUpload c1Cfg c1Be c1Kv (gs "r")
        ((mkSession 0).tempLocation ++ gs "/data") (bodyOfLen 5)).kv ∧
    ∃ st, (ResumableMultipartUpload c1Cfg c1Be c1Kv (gs "r")
        ((mkSession 0).tempLocation ++ gs "/data") (bodyOfLen 5)).result
        = some ⟨st.bytesUploaded, false, some st, []⟩ ∧
      lookupKey (engineStateKey c1Cfg (gs "r") (bodyOfLen 5))
        (handleUploadChunk c1Cfg c1Be c1Kv (gs "r") (gs "u1") 0 (gs "chunked")
          (bodyOfLen 5)).kv.multipart = some st :=
  loop_net_failure_saves_state_but_client_gets_500 c1Cfg c1Be c1Kv (gs "r") (gs "u1")
    (bodyOfLen 5) (mkSession 0) 1 (by decide) (by decide) (by decide)

/-! ## Claim C4: exact full-budget payload completes in one invocation -/

/-- When every upload-part request succeeds with status 200 and the stream
holds exactly `fuel` full parts, the loop uploads them all and exits `done`:
the KV store is untouched, the trace gains one upload-part call of
`partSize` bytes per part, the state gains consecutively numbered parts, and
the stream is fully consumed. -/
theorem uploadLoop_all_success (cfg : Config) (be : Backend) (sk key uid : GoStr)
    (etagOf : Nat → Nat → GoStr)
    (hbe : ∀ pn n, be.uploadPart key uid pn n = some (200, etagOf pn n))
    (hps : 0 < cfg.partSize) :
    ∀ (fuel partsDone : Nat) (st : MultipartState) (body : ByteStream)
      (kv : KVStore) (calls : List S3Call),
    body.remaining = fuel * cfg.partSize →
    ∃ newParts : List CompletedPart,
      uploadLoop cfg be sk key uid fuel partsDone st body kv calls =
        (kv,
         calls ++ newParts.map (fun cp => S3Call.uploadPartCall key uid cp.partNumber cfg.partSize),
         { st with completedParts := st.completedParts ++ newParts,
                   nextPartNumber := st.nextPartNumber + fuel,
                   bytesUploaded := st.bytesUploaded + fuel * cfg.partSize },
         { body with pos := body.pos + fuel * cfg.partSize }, LoopExit.done) ∧
      newParts.map CompletedPart.partNumber =
        (List.range fuel).map (fun i => st.nextPartNumber + i) := by
  intro fuel
  induction fuel with
  | zero =>
    intro partsDone st body kv calls _hrem
    refine ⟨[], ?_, rfl⟩
    simp [uploadLoop]
  | succ fuel ih =>
    intro partsDone st body kv calls hrem
    have hminP : min cfg.partSize body.remaining = cfg.partSize := by
      rw [hrem, Nat.succ_mul]
      exact Nat.min_eq_left (by omega)
    have hdata : ((body.readFull cfg.partSize).1).length = cfg.partSize := by
      simp [ByteStream.readFull, hminP]
    have hbody1 : (body.readFull cfg.partSize).2 = { body with pos := body.pos + cfg.partSize } := by
      simp [ByteStream.readFull, hminP]
    have hrem1 : ({ body with pos := body.pos + cfg.partSize } : ByteStream).remaining =
        fuel * cfg.partSize := by
      have h1 : body.remaining = body.len - body.pos := rfl
      show body.len - (body.pos + cfg.partSize) = fuel * cfg.partSize
      rw [Nat.succ_mul] at hrem
      have hgen : body.len - body.pos = fuel * cfg.partSize + cfg.partSize := by
        rw [← h1, hrem]
      omega
    -- the state after this iteration
    set etag := (if etagOf st.nextPartNumber cfg.partSize = [] then
      gs "\"" ++ sha256Hex (body.readFull cfg.partSize).1 ++ gs "\"" else
      etagOf st.nextPartNumber cfg.partSize) with hetag
    set st1 : MultipartState :=
      { st with completedParts := st.completedParts ++ [⟨st.nextPartNumber, etag⟩],
                nextPartNumber := st.nextPartNumber + 1,
                bytesUploaded := st.bytesUploaded + cfg.partSize } with hst1
    obtain ⟨newParts, hloop, hnums⟩ := ih (partsDone + 1) st1
      { body with pos := body.pos + cfg.partSize } kv
      (calls ++ [S3Call.uploadPartCall key uid st.nextPartNumber cfg.partSize]) hrem1
    refine ⟨⟨st.nextPartNumber, etag⟩ :: newParts, ?_, ?_⟩
    · have hstep : uploadLoop cfg be sk key uid (fuel + 1) partsDone st body kv calls =
          uploadLoop cfg be sk key uid fuel (partsDone + 1) st1
            { body with pos := body.pos + cfg.partSize }
            kv (calls ++ [S3Call.uploadPartCall key uid st.nextPartNumber cfg.partSize]) := by
        conv_lhs => rw [uploadLoop]
        rw [if_neg (by rw [hdata]; omega)]
        dsimp only
        rw [hdata, hbe st.nextPartNumber cfg.partSize]
        dsimp only
        rw [if_neg (by simp)]
        rw [hbody1, hst1, hetag]
      rw [hstep, hloop]
      have hcalls : (calls ++ [S3Call.uploadPartCall key uid st.nextPartNumber cfg.partSize])
          ++ newParts.map (fun cp => S3Call.uploadPartCall key uid cp.partNumber cfg.partSize) =
          calls ++ (⟨st.nextPartNumber, etag⟩ :: newParts : List CompletedPart).map
            (fun cp => S3Call.uploadPartCall key uid cp.partNumber cfg.partSize) := by
        simp
      have hparts : st1.completedParts ++ newParts =
          st.completedParts ++ (⟨st.nextPartNumber, etag⟩ :: newParts) := by
        simp [hst1]
      have hnext : st1.nextPartNumber + fuel = st.nextPartNumber + (fuel + 1) := by
        simp [hst1]
        omega
      have hbytes : st1.bytesUploaded + fuel * cfg.partSize =
          st.bytesUploaded + (fuel + 1) * cfg.partSize := by
        simp [hst1, Nat.succ_mul]
        omega
      have hpos : body.pos + cfg.partSize + fuel * cfg.partSize =
          body.pos + (fuel + 1) * cfg.partSize := by
        rw [Nat.succ_mul]
        omega
      rw [hcalls, hparts, hnext, hbytes, hpos]
    · have hmaps : (⟨st.nextPartNumber, etag⟩ :: newParts : List CompletedPart).map
          CompletedPart.partNumber = st.nextPartNumber :: newParts.map CompletedPart.partNumber := rfl
      rw [hmaps, hnums]
      have h1 : st1.nextPartNumber = st.nextPartNumber + 1 := by simp [hst1]
      rw [h1]
      rw [List.range_succ_eq_map]
      simp only [List.map_cons, List.map_map]
      refine congrArg₂ _ (by omega) ?_
      apply List.map_congr_left
      intro i _
      simp [Function.comp]
      omega

theorem range_map_add_one (m : Nat) :
    (List.range (m + 1)).map (fun i => i + 1) = 1 :: (List.range m).map (fun i => 2 + i) := by
  rw [List.range_succ_eq_map]
  simp only [List.map_cons, List.map_map]
  refine congrArg₂ _ (by omega) ?_
  apply List.map_congr_left
  intro i _
  simp [Function.comp]
  omega

/-- A parts list whose numbers are `1, 2, …, m+1` is already ascending, so
the pre-complete sort leaves it unchanged. -/
theorem sortParts_eq_of_consecutive (newParts : List CompletedPart) (e : GoStr) (m : Nat)
    (h : newParts.map CompletedPart.partNumber = (List.range m).map (fun i => 2 + i)) :
    sortParts (⟨1, e⟩ :: newParts) = ⟨1, e⟩ :: newParts := by
  have hpairnew : List.Pairwise partLE newParts := by
    have hlt : List.Pairwise (fun x y : Nat => x < y) (List.range m) := List.pairwise_lt_range m
    have hmapped : List.Pairwise (fun x y : Nat => x ≤ y)
        ((List.range m).map (fun i => 2 + i)) :=
      hlt.map _ (fun x y hxy => by omega)
    rw [← h] at hmapped
    exact List.Pairwise.of_map CompletedPart.partNumber (fun a b hab => hab) hmapped
  have hhead : ∀ q ∈ newParts, partLE ⟨1, e⟩ q := by
    intro q hq
    have hmem : q.partNumber ∈ (List.range m).map (fun i => 2 + i) := by
      rw [← h]
      exact List.mem_map_of_mem CompletedPart.partNumber hq
    rcases List.mem_map.mp hmem with ⟨i, _, hi⟩
    show (1 : Nat) ≤ q.partNumber
    omega
  exact List.Sorted.insertionSort_eq (List.pairwise_cons.mpr ⟨hhead, hpairnew⟩)

theorem uploadPartNumbers_append (a b : List S3Call) :
    uploadPartNumbers (a ++ b) = uploadPartNumbers a ++ uploadPartNumbers b := by
  simp [uploadPartNumbers]

theorem uploadPartSizes_append (a b : List S3Call) :
    uploadPartSizes (a ++ b) = uploadPartSizes a ++ uploadPartSizes b := by
  simp [uploadPartSizes]

theorem uploadPartNumbers_map_calls (key uid : GoStr) (P : Nat) (l : List CompletedPart) :
    uploadPartNumbers (l.map (fun cp => S3Call.uploadPartCall key uid cp.partNumber P)) =
      l.map CompletedPart.partNumber := by
  induction l with
  | nil => rfl
  | cons x xs ih =>
    simp only [List.map_cons]
    show x.partNumber :: uploadPartNumbers
      (xs.map (fun cp => S3Call.uploadPartCall key uid cp.partNumber P)) = _
    rw [ih]

theorem uploadPartSizes_map_calls (key uid : GoStr) (P : Nat) (l : List CompletedPart) :
    uploadPartSizes (l.map (fun cp => S3Call.uploadPartCall key uid cp.partNumber P)) =
      List.replicate l.length P := by
  induction l with
  | nil => rfl
  | cons x xs ih =>
    simp only [List.map_cons, List.length_cons, List.replicate_succ]
    show P :: uploadPartSizes
      (xs.map (fun cp => S3Call.uploadPartCall key uid cp.partNumber P)) = _
    rw [ih]

/-- Claim C4: for a chunked upload stream of exactly
`PartSize * MaxPartsPerRequest` bytes starting from fresh state (no
completed-content record, no matching checkpoint), a single ingestion
invocation with a healthy backend uploads exactly `maxParts` parts (part 1
built from the identification buffer plus a fill read, then `maxParts - 1`
further full parts, all of `partSize` bytes), sends complete-multipart with
the parts in ascending order, leaves no checkpoint, records the
completed-content entry, and returns a complete result. Instantiating
`cfg := realConfig` gives the spec's 28 × 16 MiB = 448 MiB case. -/
theorem exact_budget_single_invocation (cfg : Config) (be : Backend) (kv : KVStore)
    (repoName key uid : GoStr) (body : ByteStream) (etagOf : Nat → Nat → GoStr)
    (hid : 0 < cfg.identifySize) (hips : cfg.identifySize ≤ cfg.partSize)
    (hps : 0 < cfg.partSize) (hmp : 0 < cfg.maxParts)
    (hrem : body.remaining = cfg.partSize * cfg.maxParts)
    (hnock : (lookupKey (engineStateKey cfg repoName body) kv.completed).getD [] = [])
    (hnost : ∀ st, lookupKey (engineStateKey cfg repoName body) kv.multipart = some st →
      ¬ st.contentHash = (sha256Hex (body.readFull cfg.identifySize).1).take 16)
    (hinit : be.initiate key = some (200, uid))
    (hup : ∀ pn n, be.uploadPart key uid pn n = some (200, etagOf pn n))
    (hcomp : be.complete key uid = some 200) :
    (ResumableMultipartUpload cfg be kv repoName key body).err = none ∧
    (ResumableMultipartUpload cfg be kv repoName key body).result =
      some ⟨cfg.partSize * cfg.maxParts, true, none, key⟩ ∧
    uploadPartNumbers (ResumableMultipartUpload cfg be kv repoName key body).calls =
      (List.range cfg.maxParts).map (fun i => i + 1) ∧
    uploadPartSizes (ResumableMultipartUpload cfg be kv repoName key body).calls =
      List.replicate cfg.maxParts cfg.partSize ∧
    (∃ pns, S3Call.completeCall key uid pns ∈
        (ResumableMultipartUpload cfg be kv repoName key body).calls ∧
      pns = (List.range cfg.maxParts).map (fun i => i + 1)) ∧
    lookupKey (engineStateKey cfg repoName body)
      (ResumableMultipartUpload cfg be kv repoName key body).kv.multipart = none ∧
    lookupKey (engineStateKey cfg repoName body)
      (ResumableMultipartUpload cfg be kv repoName key body).kv.completed = some key := by
  obtain ⟨m, hm⟩ : ∃ m, cfg.maxParts = m + 1 := ⟨cfg.maxParts - 1, by omega⟩
  have hPle : cfg.partSize ≤ cfg.partSize * cfg.maxParts :=
    Nat.le_mul_of_pos_right cfg.partSize hmp
  have hPM : cfg.partSize * cfg.maxParts = m * cfg.partSize + cfg.partSize := by
    rw [hm]; ring
  have hIle : cfg.identifySize ≤ body.remaining := by
    rw [hrem]; exact hips.trans hPle
  have hminI : min cfg.identifySize body.remaining = cfg.identifySize := Nat.min_eq_left hIle
  have hidlen : ((body.readFull cfg.identifySize).1).length = cfg.identifySize := by
    simp [ByteStream.readFull, hminI]
  have hnenil : (body.readFull cfg.identifySize).1 ≠ [] := by
    intro hcontra
    rw [hcontra] at hidlen
    simp at hidlen
    omega
  have hbody1 : (body.readFull cfg.identifySize).2 =
      { body with pos := body.pos + cfg.identifySize } := by
    simp [ByteStream.readFull, hminI]
  have hsk : engineStateKey cfg repoName body =
      repoName ++ gs "/" ++ (sha256Hex (body.readFull cfg.identifySize).1).take 16 := rfl
  rw [hsk] at hnock hnost ⊢
  have hlenrem : body.len - body.pos = cfg.partSize * cfg.maxParts := hrem
  -- step A: reduce to freshStart
  have hafter : ResumableMultipartUpload cfg be kv repoName key body =
      freshStart cfg be kv []
        (repoName ++ gs "/" ++ (sha256Hex (body.readFull cfg.identifySize).1).take 16)
        key (body.readFull cfg.identifySize).1
        ((sha256Hex (body.readFull cfg.identifySize).1).take 16)
        (body.readFull cfg.identifySize).2 := by
    unfold ResumableMultipartUpload
    rw [if_neg (by intro hcontra; exact hnenil hcontra.2)]
    dsimp only
    rw [if_pos hnock]
    unfold afterEarly
    rcases hlk : lookupKey (repoName ++ gs "/" ++
        (sha256Hex (body.readFull cfg.identifySize).1).take 16) kv.multipart with _ | st0
    · rfl
    · dsimp only
      rw [if_neg (hnost st0 hlk)]
  -- step B: the first-part read
  have hmin2 : min (cfg.partSize - cfg.identifySize)
      (({ body with pos := body.pos + cfg.identifySize } : ByteStream)).remaining =
      cfg.partSize - cfg.identifySize := by
    apply Nat.min_eq_left
    show cfg.partSize - cfg.identifySize ≤ body.len - (body.pos + cfg.identifySize)
    omega
  have hfill : (({ body with pos := body.pos + cfg.identifySize } : ByteStream).readFull
      (cfg.partSize - cfg.identifySize)).1.length = cfg.partSize - cfg.identifySize := by
    simp [ByteStream.readFull, hmin2]
  have hn1 : ((body.readFull cfg.identifySize).1 ++
      (({ body with pos := body.pos + cfg.identifySize } : ByteStream).readFull
        (cfg.partSize - cfg.identifySize)).1).length = cfg.partSize := by
    rw [List.length_append, hidlen, hfill]
    omega
  have hbody2 : (({ body with pos := body.pos + cfg.identifySize } : ByteStream).readFull
      (cfg.partSize - cfg.identifySize)).2 =
      { body with pos := body.pos + cfg.partSize } := by
    simp [ByteStream.readFull, hmin2]
    omega
  -- the constructed first-part ETag and state
  set e1 : GoStr := (if etagOf 1 cfg.partSize = [] then
      gs "\"" ++ sha256Hex ((body.readFull cfg.identifySize).1 ++
        (({ body with pos := body.pos + cfg.identifySize } : ByteStream).readFull
          (cfg.partSize - cfg.identifySize)).1) ++ gs "\""
    else etagOf 1 cfg.partSize) with he1
  set stFirst : MultipartState :=
    { s3UploadId := uid, s3Key := key, completedParts := [⟨1, e1⟩], nextPartNumber := 2,
      bytesUploaded := cfg.partSize, startedAt := [],
      contentHash := (sha256Hex (body.readFull cfg.identifySize).1).take 16 } with hstFirst
  have hfresh : freshStart cfg be kv []
      (repoName ++ gs "/" ++ (sha256Hex (body.readFull cfg.identifySize).1).take 16)
      key (body.readFull cfg.identifySize).1
      ((sha256Hex (body.readFull cfg.identifySize).1).take 16)
      (body.readFull cfg.identifySize).2 =
      finishUpload cfg be
        (repoName ++ gs "/" ++ (sha256Hex (body.readFull cfg.identifySize).1).take 16)
        key uid 1 stFirst { body with pos := body.pos + cfg.partSize } kv
        ([] ++ [S3Call.initiateCall key] ++ [S3Call.uploadPartCall key uid 1 cfg.partSize]) := by
    unfold freshStart
    rw [hinit]
    dsimp only
    rw [if_neg (by simp)]
    rw [hbody1, hidlen, hn1]
    rw [hup 1 cfg.partSize]
    dsimp only
    rw [if_neg (by simp)]
    rw [hbody2, ← he1, ← hstFirst]
  -- step C: the main loop
  have hrem2 : ({ body with pos := body.pos + cfg.partSize } : ByteStream).remaining =
      (cfg.maxParts - 1) * cfg.partSize := by
    show body.len - (body.pos + cfg.partSize) = (cfg.maxParts - 1) * cfg.partSize
    have hm1 : (cfg.maxParts - 1) * cfg.partSize = m * cfg.partSize := by
      rw [hm]; simp
    omega
  obtain ⟨newParts, hloopEq, hnums⟩ := uploadLoop_all_success cfg be
    (repoName ++ gs "/" ++ (sha256Hex (body.readFull cfg.identifySize).1).take 16)
    key uid etagOf hup hps (cfg.maxParts - 1) 1 stFirst
    { body with pos := body.pos + cfg.partSize } kv
    ([] ++ [S3Call.initiateCall key] ++ [S3Call.uploadPartCall key uid 1 cfg.partSize]) hrem2
  have hnums2 : newParts.map CompletedPart.partNumber =
      (List.range m).map (fun i => 2 + i) := by
    rw [hnums]
    have : cfg.maxParts - 1 = m := by omega
    rw [this]
  have hnplen : newParts.length = m := by
    have := congrArg List.length hnums2
    simpa using this
  -- step D: the finish phase
  have hremfin : ({ body with pos := body.pos + cfg.partSize +
      (cfg.maxParts - 1) * cfg.partSize } : ByteStream).remaining = 0 := by
    show body.len - (body.pos + cfg.partSize + (cfg.maxParts - 1) * cfg.partSize) = 0
    have hm1 : (cfg.maxParts - 1) * cfg.partSize = m * cfg.partSize := by
      rw [hm]; simp
    omega
  have hpeek : (({ body with pos := body.pos + cfg.partSize +
      (cfg.maxParts - 1) * cfg.partSize } : ByteStream).readFull 1).1.length = 0 := by
    simp [ByteStream.readFull, hremfin]
  have hsort : sortParts (stFirst.completedParts ++ newParts) = ⟨1, e1⟩ :: newParts := by
    show sortParts ([⟨1, e1⟩] ++ newParts) = _
    rw [List.singleton_append]
    exact sortParts_eq_of_consecutive newParts e1 m hnums2
  have hfin : finishUpload cfg be
      (repoName ++ gs "/" ++ (sha256Hex (body.readFull cfg.identifySize).1).take 16)
      key uid 1 stFirst { body with pos := body.pos + cfg.partSize } kv
      ([] ++ [S3Call.initiateCall key] ++ [S3Call.uploadPartCall key uid 1 cfg.partSize]) =
      ⟨(kv.deleteMultipart (repoName ++ gs "/" ++
          (sha256Hex (body.readFull cfg.identifySize).1).take 16)).saveCompleted
        (repoName ++ gs "/" ++ (sha256Hex (body.readFull cfg.identifySize).1).take 16) key,
       ([] ++ [S3Call.initiateCall key] ++ [S3Call.uploadPartCall key uid 1 cfg.partSize]) ++
         newParts.map (fun cp => S3Call.uploadPartCall key uid cp.partNumber cfg.partSize) ++
         [S3Call.completeCall key uid
           ((⟨1, e1⟩ :: newParts : List CompletedPart).map CompletedPart.partNumber)],
       some ⟨stFirst.bytesUploaded + (cfg.maxParts - 1) * cfg.partSize, true, none, key⟩,
       none,
       (({ body with pos := body.pos + cfg.partSize +
          (cfg.maxParts - 1) * cfg.partSize } : ByteStream).readFull 1).2⟩ := by
    unfold finishUpload
    rw [hloopEq]
    dsimp only
    rw [if_neg (by rw [hpeek]; omega)]
    rw [if_neg (by
      show ¬ stFirst.completedParts ++ newParts = []
      simp [hstFirst])]
    rw [hsort]
    rw [hcomp]
    dsimp only
    rw [if_neg (by simp)]
  -- assemble
  have hEngineEq := hafter.trans (hfresh.trans hfin)
  rw [hEngineEq]
  have hbytesEq : stFirst.bytesUploaded + (cfg.maxParts - 1) * cfg.partSize =
      cfg.partSize * cfg.maxParts := by
    show cfg.partSize + (cfg.maxParts - 1) * cfg.partSize = cfg.partSize * cfg.maxParts
    rw [hm]
    simp [Nat.succ_mul]
    ring
  have hpns : (⟨1, e1⟩ :: newParts : List CompletedPart).map CompletedPart.partNumber =
      (List.range cfg.maxParts).map (fun i => i + 1) := by
    rw [hm, range_map_add_one]
    simp only [List.map_cons]
    rw [hnums2]
  refine ⟨rfl, ?_, ?_, ?_, ?_, ?_, ?_⟩
  · dsimp only
    rw [hbytesEq]
  · dsimp only
    rw [uploadPartNumbers_append, uploadPartNumbers_append, uploadPartNumbers_append,
      uploadPartNumbers_map_calls]
    show ([] : List Nat) ++ [1] ++ newParts.map CompletedPart.partNumber ++ [] =
      (List.range cfg.maxParts).map (fun i => i + 1)
    rw [hm, range_map_add_one, hnums2]
    simp
  · dsimp only
    rw [uploadPartSizes_append, uploadPartSizes_append, uploadPartSizes_append,
      uploadPartSizes_map_calls, hnplen]
    show ([] : List Nat) ++ [cfg.partSize] ++ List.replicate m cfg.partSize ++ [] =
      List.replicate cfg.maxParts cfg.partSize
    rw [hm, List.replicate_succ]
    simp
  · refine ⟨(⟨1, e1⟩ :: newParts : List CompletedPart).map CompletedPart.partNumber, ?_, hpns⟩
    dsimp only
    exact List.mem_append.mpr (Or.inr (List.mem_singleton.mpr rfl))
  · dsimp only
    show lookupKey _ (eraseKey _ kv.multipart) = none
    exact lookup_erase _ _
  · dsimp only
    show lookupKey _ (insertKey _ key kv.completed) = some key
    exact lookup_insert _ _ _

def c4Be : Backend := { beDead with
  initiate := fun _ => some (200, gs "U"),
  uploadPart := fun _ _ pn _ => some (200, gs "e" ++ natStr pn),
  complete := fun _ _ => some 200 }

def c4Kv : KVStore := ⟨[], [], []⟩

/-- Claim C4 witness: identify window 2, part size 4, 3 parts per invocation,
a 12-byte stream (= partSize × maxParts) and a healthy backend. -/
theorem exact_budget_single_invocation_witness :
    (ResumableMultipartUpload c1Cfg c4Be c4Kv (gs "r") (gs "k") (bodyOfLen 12)).err = none ∧
    (ResumableMultipartUpload c1Cfg c4Be c4Kv (gs "r") (gs "k") (bodyOfLen 12)).result =
      some ⟨c1Cfg.partSize * c1Cfg.maxParts, true, none, gs "k"⟩ ∧
    uploadPartNumbers (ResumableMultipartUpload c1Cfg c4Be c4Kv (gs "r") (gs "k")
        (bodyOfLen 12)).calls = (List.range c1Cfg.maxParts).map (fun i => i + 1) ∧
    uploadPartSizes (ResumableMultipartUpload c1Cfg c4Be c4Kv (gs "r") (gs "k")
        (bodyOfLen 12)).calls = List.replicate c1Cfg.maxParts c1Cfg.partSize ∧
    (∃ pns, S3Call.completeCall (gs "k") (gs "U") pns ∈
        (ResumableMultipartUpload c1Cfg c4Be c4Kv (gs "r") (gs "k") (bodyOfLen 12)).calls ∧
      pns = (List.range c1Cfg.maxParts).map (fun i => i + 1)) ∧
    lookupKey (engineStateKey c1Cfg (gs "r") (bodyOfLen 12))
      (ResumableMultipartUpload c1Cfg c4Be c4Kv (gs "r") (gs "k")
        (bodyOfLen 12)).kv.multipart = none ∧
    lookupKey (engineStateKey c1Cfg (gs "r") (bodyOfLen 12))
      (ResumableMultipartUpload c1Cfg c4Be c4Kv (gs "r") (gs "k")
        (bodyOfLen 12)).kv.completed = some (gs "k") :=
  exact_budget_single_invocation c1Cfg c4Be c4Kv (gs "r") (gs "k") (gs "U") (bodyOfLen 12)
    (fun pn _ => gs "e" ++ natStr pn)
    (by decide) (by decide) (by decide) (by decide) (by decide) (by decide)
    (by intro st hst; simp [c4Kv, lookupKey] at hst)
    rfl (fun _ _ => rfl) rfl

end EdgeOCI
